import Mathlib

/-!
# Telemost plugin: OAuth session manager, meeting client and command dispatch

A shallow embedding of `server/oauth.go`, `server/telemost.go`, `server/plugin.go`,
`server/configuration.go`, `server/telemost_style_api.go` and
`server/command/telemost_style_command.go`.

Conventions of the embedding.

* Go strings and byte slices that hold text are Lean strings (`Bytes`); a nil slice is `none`
  where the code can tell it from an empty one, and the empty text where it is only read.
* `time.Time` is an instant counted in nanoseconds (`Time`), `time.Duration` a number of
  nanoseconds; every `time.Now()` of a handler is an argument of the handler.
* The host platform (key-value store, channel posts) and the outgoing HTTP traffic are an explicit
  `World` that every operation threads through; the ways in which a host call may fail are an
  explicit `Faults` argument, the provider's answer is a `Net` argument and the files of the
  plugin bundle are a `Files` argument.
* The Go standard library is not part of the repository. JSON documents are syntax trees (`Json`);
  how Go fills a struct from a tree (field tags, case folding, `null`, type errors) and which
  members it writes (`omitempty`) is modelled on the trees, while the text layer (`render`,
  `parse`), RFC 3339 time formatting, base64, query escaping, Unicode lowering and path joining
  are the fields of a `GoLib` argument. What a theorem needs from them is a hypothesis of that theorem.
* A return value `(x, err)` with exactly one side set is an `Except String _` whose error carries
  the message; a nil-pointer dereference is `Outcome.panic`.
* Calls to the logger are not modelled.
-/

namespace Telemost

/-! ## Go values -/

/-- Text held in a Go string or byte slice. -/
abbrev Bytes := String

/-- An instant, in nanoseconds since the Unix epoch. -/
abbrev Time := Int

/-- The duration time.Second. -/
def Second : Int := 1000000000

/-- The duration time.Minute. -/
def Minute : Int := 60 * Second

/-- The duration time.Hour. -/
def Hour : Int := 60 * Minute

/-- The method Time.Add. -/
def Time.Add (t : Time) (d : Int) : Time := t + d

/-- The method Time.After: `t.After(u)` reports whether `t` is later than `u`. -/
def Time.After (t u : Time) : Bool := decide (u < t)

/-- The zero value of time.Time: January 1 of year 1, 00:00 UTC. -/
def zeroTime : Time := -62135596800 * Second

/-- A JSON document as a syntax tree; object members are kept in document order. -/
inductive Json where
  | null : Json
  | bool (b : Bool) : Json
  | num (literal : String) : Json
  | str (s : String) : Json
  | arr (items : List Json) : Json
  | obj (members : List (String × Json)) : Json

/-- The parts of the Go standard library the plugin calls, as parameters. -/
structure GoLib where
  /-- The text json.Marshal writes for a tree. -/
  render : Json → Bytes
  /-- The tree json.Unmarshal reads from a whole text; `none` is a syntax error. -/
  parse : Bytes → Option Json
  /-- The first value a json.Decoder reads from a request body; `none` is a read or syntax
  error. -/
  decodeFirst : Bytes → Option Json
  /-- The RFC 3339 text of an instant; `none` when Time.MarshalJSON refuses the year. -/
  formatTime : Time → Option String
  /-- The instant of an RFC 3339 text. -/
  parseTime : String → Option Time
  /-- The encoder base64.URLEncoding.EncodeToString. -/
  base64URL : List Nat → String
  /-- The function url.QueryEscape. -/
  queryEscape : String → String
  /-- The function strings.ToLower. -/
  toLower : String → String
  /-- The message of the error json.Unmarshal returns for a text it cannot store. -/
  jsonError : Bytes → String
  /-- The function filepath.Join on two elements. -/
  filepathJoin : String → String → String
  /-- The escaping net/http applies to the URL of a Location header: every byte outside ASCII
  becomes a percent sign and its hexadecimal value. -/
  hexEscapeNonASCII : String → String
  /-- The escaping net/http applies to the URL in the anchor of a redirect page. -/
  htmlEscape : String → String

/-- A function result that may also be a run-time panic. -/
inductive Outcome (α : Type) where
  | ok (a : α) : Outcome α
  | error (msg : String) : Outcome α
  | panic : Outcome α

/-! ## How encoding/json fills Go values from a tree -/

/-- Case folding of one rune of a member name, as encoding/json does it (ASCII letters to upper
case; the Kelvin sign and the long s are the only other runes that fold onto ASCII letters). -/
def foldRune (c : Char) : Char :=
  if 'a'.toNat ≤ c.toNat ∧ c.toNat ≤ 'z'.toNat then Char.ofNat (c.toNat - 32)
  else if c.toNat = 0x212A then 'K'
  else if c.toNat = 0x17F then 'S'
  else c

/-- Case folding of a member name. -/
def foldName (s : String) : String := String.mk (s.data.map foldRune)

/-- The struct field a member name selects: the field whose tag is the name exactly, else the
first field whose tag equals it under case folding. -/
def fieldIndex (tags : List String) (key : String) : Option Nat :=
  match tags.indexOf? key with
  | some i => some i
  | none => (tags.map foldName).indexOf? (foldName key)

/-- Filling a struct from the members of an object, in document order: a member that selects no
field is skipped, and the first member that cannot be stored makes the whole decoding fail. -/
def decodeMembers {α : Type} (tags : List String) (store : Nat → Json → α → Option α) :
    List (String × Json) → α → Option α
  | [], cur => some cur
  | (k, v) :: rest, cur =>
    match fieldIndex tags k with
    | none => decodeMembers tags store rest cur
    | some i =>
      match store i v cur with
      | none => none
      | some next => decodeMembers tags store rest next

/-- Storing a value into a string field: `null` leaves it, a string sets it, any other value is
an UnmarshalTypeError. -/
def decodeString (cur : String) : Json → Option String
  | .null => some cur
  | .str s => some s
  | _ => none

/-- Storing a value into a time.Time field through Time.UnmarshalJSON. -/
def decodeTime (lib : GoLib) (cur : Time) : Json → Option Time
  | .null => some cur
  | .str s => lib.parseTime s
  | _ => none

/-- A member written unless the string is empty (`omitempty`). -/
def omitEmpty (key value : String) : List (String × Json) :=
  if value = "" then [] else [(key, Json.str value)]

/-- Whether a tree is an object with a member of this name. -/
def Json.hasMember (j : Json) (key : String) : Bool :=
  match j with
  | .obj ms => ms.any fun kv => kv.1 == key
  | _ => false

/-- The statement fmt.Sprintf with verb `%d` for a status code. -/
def formatInt (n : Nat) : String := toString n


/-! ## Stored records (oauth.go) -/

/-- The constant oauthStateKeyPrefix. -/
def oauthStateKeyPrefix : String := "telemost_oauth_state_"

/-- The constant userTokenKeyPrefix. -/
def userTokenKeyPrefix : String := "telemost_user_token_"

/-- The constant oauthRedirectURL. -/
def oauthRedirectURL : String := "/plugins/com.mattermost.plugin-telemost/oauth/callback"

/-- The struct OAuthState. -/
structure OAuthState where
  UserID : String
  ChannelID : String
  ExpiresAt : Time
deriving DecidableEq, Repr

/-- The struct UserToken. -/
structure UserToken where
  AccessToken : String
  ExpiresAt : Time
  UserID : String
deriving DecidableEq, Repr

/-- The struct OAuthCompleteRequest. -/
structure OAuthCompleteRequest where
  AccessToken : String
  State : String
deriving DecidableEq, Repr

/-- The tree json.Marshal builds for an OAuthState (fields in declaration order, under their
tags); `none` when the time cannot be formatted. -/
def OAuthState.toJson (lib : GoLib) (s : OAuthState) : Option Json :=
  match lib.formatTime s.ExpiresAt with
  | none => none
  | some t =>
    some (Json.obj [("user_id", Json.str s.UserID), ("channel_id", Json.str s.ChannelID),
      ("expires_at", Json.str t)])

/-- Storing one member into the field of an OAuthState it selects. -/
def OAuthState.store (lib : GoLib) (i : Nat) (v : Json) (cur : OAuthState) : Option OAuthState :=
  match i with
  | 0 => (decodeString cur.UserID v).map fun x => { cur with UserID := x }
  | 1 => (decodeString cur.ChannelID v).map fun x => { cur with ChannelID := x }
  | _ => (decodeTime lib cur.ExpiresAt v).map fun x => { cur with ExpiresAt := x }

/-- Filling an OAuthState from a tree. -/
def OAuthState.fromJson (lib : GoLib) (cur : OAuthState) : Json → Option OAuthState
  | .null => some cur
  | .obj ms => decodeMembers ["user_id", "channel_id", "expires_at"] (OAuthState.store lib) ms cur
  | _ => none

/-- The call json.Marshal(oauthState). -/
def marshalOAuthState (lib : GoLib) (s : OAuthState) : Option Bytes :=
  (OAuthState.toJson lib s).map lib.render

/-- The call json.Unmarshal(stateJSON, &oauthState) on a fresh variable. -/
def unmarshalOAuthState (lib : GoLib) (data : Bytes) : Option OAuthState :=
  match lib.parse data with
  | none => none
  | some j => OAuthState.fromJson lib ⟨"", "", zeroTime⟩ j

/-- The tree json.Marshal builds for a UserToken. -/
def UserToken.toJson (lib : GoLib) (t : UserToken) : Option Json :=
  match lib.formatTime t.ExpiresAt with
  | none => none
  | some e =>
    some (Json.obj [("access_token", Json.str t.AccessToken), ("expires_at", Json.str e),
      ("user_id", Json.str t.UserID)])

/-- Storing one member into the field of a UserToken it selects. -/
def UserToken.store (lib : GoLib) (i : Nat) (v : Json) (cur : UserToken) : Option UserToken :=
  match i with
  | 0 => (decodeString cur.AccessToken v).map fun x => { cur with AccessToken := x }
  | 1 => (decodeTime lib cur.ExpiresAt v).map fun x => { cur with ExpiresAt := x }
  | _ => (decodeString cur.UserID v).map fun x => { cur with UserID := x }

/-- Filling a UserToken from a tree. -/
def UserToken.fromJson (lib : GoLib) (cur : UserToken) : Json → Option UserToken
  | .null => some cur
  | .obj ms => decodeMembers ["access_token", "expires_at", "user_id"] (UserToken.store lib) ms cur
  | _ => none

/-- The call json.Marshal(userToken). -/
def marshalUserToken (lib : GoLib) (t : UserToken) : Option Bytes :=
  (UserToken.toJson lib t).map lib.render

/-- The call json.Unmarshal(tokenJSON, &userToken) on a fresh variable. -/
def unmarshalUserToken (lib : GoLib) (data : Bytes) : Option UserToken :=
  match lib.parse data with
  | none => none
  | some j => UserToken.fromJson lib ⟨"", zeroTime, ""⟩ j

/-- Storing one member into the field of an OAuthCompleteRequest it selects. -/
def OAuthCompleteRequest.store (i : Nat) (v : Json) (cur : OAuthCompleteRequest) :
    Option OAuthCompleteRequest :=
  match i with
  | 0 => (decodeString cur.AccessToken v).map fun x => { cur with AccessToken := x }
  | _ => (decodeString cur.State v).map fun x => { cur with State := x }

/-- Filling an OAuthCompleteRequest from a tree. -/
def OAuthCompleteRequest.fromJson (cur : OAuthCompleteRequest) : Json → Option OAuthCompleteRequest
  | .null => some cur
  | .obj ms => decodeMembers ["access_token", "state"] OAuthCompleteRequest.store ms cur
  | _ => none

/-- The call json.NewDecoder(r.Body).Decode(&req) on a fresh variable. -/
def decodeOAuthCompleteRequest (lib : GoLib) (body : Bytes) : Option OAuthCompleteRequest :=
  match lib.decodeFirst body with
  | none => none
  | some j => OAuthCompleteRequest.fromJson ⟨"", ""⟩ j

/-! ## The host platform -/

/-- The fields of model.Post the plugin sets. -/
structure Post where
  ChannelId : String
  Message : String
  UserId : String
deriving DecidableEq, Repr

/-- An HTTP request sent to the provider. -/
structure ProviderRequest where
  Method : String
  URL : String
  Authorization : String
  ContentType : String
  Body : Bytes
deriving DecidableEq, Repr

/-- What the plugin can observe and change outside itself: the key-value store of the host, the
posts it has created, and the requests it has sent to the provider (oldest first). -/
structure World where
  kv : String → Option Bytes
  posts : List Post
  calls : List ProviderRequest

/-- The failures of the host during one operation: for each call that may fail, the error it
returns (`none`: the call succeeds). -/
structure Faults where
  kvGet : String → Option String
  kvSet : String → Option String
  kvDelete : String → Option String
  createPost : Option String

/-- A host without failures. -/
def Faults.none : Faults := ⟨fun _ => Option.none, fun _ => Option.none, fun _ => Option.none, Option.none⟩

/-- The host call API.KVGet: the stored bytes, nil for a key without entry. -/
def KVGet (f : Faults) (w : World) (key : String) : Except String (Option Bytes) :=
  match f.kvGet key with
  | some e => Except.error e
  | none => Except.ok (w.kv key)

/-- The host call API.KVSet; a failed call leaves the store as it was. -/
def KVSet (f : Faults) (w : World) (key : String) (value : Bytes) : World × Option String :=
  match f.kvSet key with
  | some e => (w, some e)
  | none => ({ w with kv := Function.update w.kv key (some value) }, Option.none)

/-- The host call API.KVDelete; deleting a key without entry succeeds, a failed call leaves the
store as it was. -/
def KVDelete (f : Faults) (w : World) (key : String) : World × Option String :=
  match f.kvDelete key with
  | some e => (w, some e)
  | none => ({ w with kv := Function.update w.kv key Option.none }, Option.none)

/-- The host call API.CreatePost. -/
def CreatePost (f : Faults) (w : World) (post : Post) : World × Option String :=
  match f.createPost with
  | some e => (w, some e)
  | none => ({ w with posts := w.posts ++ [post] }, Option.none)

/-- The text handed to json.Unmarshal for a slice that may be nil. -/
def bytesOf (data : Option Bytes) : Bytes := data.getD ""

/-! ## HTTP responses -/

/-- What a handler has written to its http.ResponseWriter. -/
structure Response where
  status : Nat
  header : List (String × String)
  body : String
deriving DecidableEq, Repr

/-- The function http.Error. -/
def httpError (msg : String) (code : Nat) : Response :=
  ⟨code, [("Content-Type", "text/plain; charset=utf-8"), ("X-Content-Type-Options", "nosniff")],
    msg ++ "\n"⟩

/-- The function http.StatusText on the status codes the plugin writes. -/
def StatusText (code : Nat) : String :=
  if code = 200 then "OK"
  else if code = 307 then "Temporary Redirect"
  else if code = 400 then "Bad Request"
  else if code = 401 then "Unauthorized"
  else if code = 403 then "Forbidden"
  else if code = 404 then "Not Found"
  else if code = 405 then "Method Not Allowed"
  else if code = 500 then "Internal Server Error"
  else ""

/-- The function http.Redirect for an absolute URL and a response without Content-Type so far:
the Location header holds the escaped URL, a GET or HEAD request gets the Content-Type of a
page, and a GET request gets the anchor page as body. -/
def httpRedirect (lib : GoLib) (method url : String) (code : Nat) : Response :=
  ⟨code,
    [("Location", lib.hexEscapeNonASCII url)]
      ++ (if method = "GET" ∨ method = "HEAD" then [("Content-Type", "text/html; charset=utf-8")]
          else []),
    if method = "GET" then
      "<a href=\"" ++ lib.htmlEscape url ++ "\">" ++ StatusText code ++ "</a>.\n" ++ "\n"
    else ""⟩

/-! ## Configuration (configuration.go) -/

/-- The struct configuration. -/
structure configuration where
  TelemostOAuthToken : String
  YandexClientID : String
  SiteURL : String
  DefaultWaitingRoomLevel : String
  EnableLiveStream : Bool
  DefaultLiveStreamAccessLevel : String
deriving DecidableEq, Repr

/-- The method configuration.IsValid: the error, if any. -/
def configuration.IsValid (c : configuration) : Option String :=
  if c.YandexClientID = "" then some "must have a Yandex Client ID"
  else if c.SiteURL = "" then some "must have a Site URL"
  else none

/-- The method configuration.GetDefaultWaitingRoomLevel. -/
def configuration.GetDefaultWaitingRoomLevel (c : configuration) : String :=
  c.DefaultWaitingRoomLevel

/-- The method configuration.IsLiveStreamEnabled. -/
def configuration.IsLiveStreamEnabled (c : configuration) : Bool := c.EnableLiveStream

/-- The method configuration.GetDefaultLiveStreamAccessLevel. -/
def configuration.GetDefaultLiveStreamAccessLevel (c : configuration) : String :=
  c.DefaultLiveStreamAccessLevel

/-- The struct TelemostClient (its reference to the host API is not used by any method). -/
structure TelemostClient where
  oauthToken : String
deriving DecidableEq, Repr

/-- The function NewTelemostClient. -/
def NewTelemostClient (oauthToken : String) : TelemostClient := ⟨oauthToken⟩

/-- The fields of the struct Plugin that the handlers read: the active configuration and the
plugin-wide client, either of which may be nil. -/
structure Plugin where
  configuration : Option configuration
  telemostClient : Option TelemostClient
deriving DecidableEq, Repr

/-- The method Plugin.getConfiguration: the active configuration, or an empty one. -/
def Plugin.getConfiguration (p : Plugin) : Telemost.configuration :=
  match p.configuration with
  | none => ⟨"", "", "", "", false, ""⟩
  | some c => c

/-- The method Plugin.OnConfigurationChange, given the outcome of LoadPluginConfiguration. -/
def Plugin.OnConfigurationChange (p : Plugin)
    (loaded : Except String Telemost.configuration) :
    Plugin × Option String :=
  match loaded with
  | .error e => (p, some ("failed to load plugin configuration: " ++ e))
  | .ok c =>
    if c.TelemostOAuthToken ≠ "" then (⟨some c, some (NewTelemostClient c.TelemostOAuthToken)⟩, none)
    else (⟨some c, none⟩, none)

/-! ## OAuth session manager (oauth.go) -/

/-- What handleOAuthStart reads from its request. -/
structure StartRequest where
  Method : String
  /-- The header Mattermost-User-Id, empty when absent. -/
  UserID : String
  /-- The query parameter channel_id, empty when absent. -/
  ChannelID : String
deriving DecidableEq, Repr

/-- What handleOAuthComplete reads from its request. -/
structure CompleteRequest where
  Method : String
  Body : Bytes
deriving DecidableEq, Repr

/-- The URL handleOAuthStart redirects to, with the state as its last query parameter. -/
def oauthURL (lib : GoLib) (config : configuration) (state : String) : String :=
  let redirectURI := config.SiteURL ++ oauthRedirectURL
  "https://oauth.yandex.ru/authorize?response_type=token&client_id=" ++ config.YandexClientID
    ++ "&redirect_uri=" ++ lib.queryEscape redirectURI ++ "&state=" ++ state

/-- The library writes this state and reads it back as it was. -/
def StateRoundTrips (lib : GoLib) (s : OAuthState) : Prop :=
  ∃ b, marshalOAuthState lib s = some b ∧ unmarshalOAuthState lib b = some s

/-- The library writes this token and reads it back as it was. -/
def TokenRoundTrips (lib : GoLib) (t : UserToken) : Prop :=
  ∃ b, marshalUserToken lib t = some b ∧ unmarshalUserToken lib b = some t

/-- Whatever text the library writes for this state, it reads it back as it was. -/
def ReadsBackState (lib : GoLib) (s : OAuthState) : Prop :=
  ∀ b, marshalOAuthState lib s = some b → unmarshalOAuthState lib b = some s

/-- Whatever text the library writes for this token, it reads it back as it was. -/
def ReadsBackToken (lib : GoLib) (t : UserToken) : Prop :=
  ∀ b, marshalUserToken lib t = some b → unmarshalUserToken lib b = some t

/-- The method Plugin.handleOAuthStart. `rand` is the outcome of rand.Read on the 32-byte buffer
and `now` the reading of the clock. -/
def handleOAuthStart (lib : GoLib) (p : Plugin) (f : Faults) (rand : Except String (List Nat))
    (now : Time) (w : World) (r : StartRequest) : World × Response :=
  let userID := r.UserID
  if userID = "" then (w, httpError "Unauthorized" 401)
  else
    let channelID := r.ChannelID
    if channelID = "" then (w, httpError "Missing channel_id parameter" 400)
    else
      match rand with
      | .error _ => (w, httpError "Internal server error" 500)
      | .ok stateBytes =>
        let state := lib.base64URL stateBytes
        let oauthState : OAuthState := ⟨userID, channelID, Time.Add now (10 * Minute)⟩
        match marshalOAuthState lib oauthState with
        | none => (w, httpError "Internal server error" 500)
        | some stateJSON =>
          match KVSet f w (oauthStateKeyPrefix ++ state) stateJSON with
          | (w1, some _) => (w1, httpError "Internal server error" 500)
          | (w1, none) =>
            let config := p.getConfiguration
            (w1, httpRedirect lib r.Method (oauthURL lib config state) 307)

/-- The post handleOAuthComplete sends to the channel of the state. -/
def successPost (oauthState : OAuthState) : Post :=
  ⟨oauthState.ChannelID,
    "âœ… **Connected to Telemost**\n\nYour Telemost authentication has been connected. Use `/telemost start` to create a meeting.",
    oauthState.UserID⟩

/-- The response handleOAuthComplete writes on success (a map is written with sorted keys). -/
def successResponse (lib : GoLib) : Response :=
  ⟨200, [("Content-Type", "application/json")],
    lib.render (Json.obj [("message", Json.str "OAuth token stored successfully"),
      ("status", Json.str "success")]) ++ "\n"⟩

/-- The method Plugin.handleOAuthComplete. `now1` is the reading of the clock for the expiry
check of the state, `now2` the later reading from which the expiry of the token is counted. -/
def handleOAuthComplete (lib : GoLib) (f : Faults) (now1 now2 : Time) (w : World)
    (r : CompleteRequest) : World × Response :=
  if r.Method ≠ "POST" then (w, httpError "Method not allowed" 405)
  else
    match decodeOAuthCompleteRequest lib r.Body with
    | none => (w, httpError "Invalid request body" 400)
    | some req =>
      match KVGet f w (oauthStateKeyPrefix ++ req.State) with
      | .error _ => (w, httpError "Invalid or expired OAuth state" 400)
      | .ok stateJSON =>
        match unmarshalOAuthState lib (bytesOf stateJSON) with
        | none => (w, httpError "Invalid OAuth state" 400)
        | some oauthState =>
          if Time.After now1 oauthState.ExpiresAt then (w, httpError "OAuth state expired" 400)
          else
            let userToken : UserToken :=
              ⟨req.AccessToken, Time.Add now2 (24 * Hour), oauthState.UserID⟩
            match marshalUserToken lib userToken with
            | none => (w, httpError "Internal server error" 500)
            | some tokenJSON =>
              match KVSet f w (userTokenKeyPrefix ++ oauthState.UserID) tokenJSON with
              | (w1, some _) => (w1, httpError "Internal server error" 500)
              | (w1, none) =>
                let w2 := (KVDelete f w1 (oauthStateKeyPrefix ++ req.State)).1
                let w3 := (CreatePost f w2 (successPost oauthState)).1
                (w3, successResponse lib)

/-- The method Plugin.getUserToken. -/
def getUserToken (lib : GoLib) (f : Faults) (now : Time) (w : World) (userID : String) :
    World × Except String UserToken :=
  match KVGet f w (userTokenKeyPrefix ++ userID) with
  | .error appErr => (w, .error appErr)
  | .ok tokenJSON =>
    match unmarshalUserToken lib (bytesOf tokenJSON) with
    | none => (w, .error (lib.jsonError (bytesOf tokenJSON)))
    | some userToken =>
      if Time.After now userToken.ExpiresAt then
        ((KVDelete f w (userTokenKeyPrefix ++ userID)).1, .error "token expired")
      else (w, .ok userToken)

/-- The method Plugin.isUserAuthenticated. -/
def isUserAuthenticated (lib : GoLib) (f : Faults) (now : Time) (w : World) (userID : String) :
    World × Bool :=
  match getUserToken lib f now w userID with
  | (w1, .ok _) => (w1, true)
  | (w1, .error _) => (w1, false)

/-! ## Meeting client (telemost.go) -/

/-- The constant telemostAPIBaseURL. -/
def telemostAPIBaseURL : String := "https://cloud-api.yandex.net/v1/telemost-api"

/-- The anonymous struct behind TelemostMeeting.LiveStream. -/
structure MeetingLiveStream where
  WatchURL : String
deriving DecidableEq, Repr

/-- The struct TelemostMeeting. -/
structure TelemostMeeting where
  ID : String
  JoinURL : String
  LiveStream : Option MeetingLiveStream
deriving DecidableEq, Repr

/-- The anonymous struct behind TelemostCreateRequest.LiveStream. -/
structure RequestLiveStream where
  AccessLevel : String
  Title : String
  Description : String
deriving DecidableEq, Repr

/-- The anonymous struct of the entries of TelemostCreateRequest.Cohosts. -/
structure Cohost where
  Email : String
deriving DecidableEq, Repr

/-- The struct TelemostCreateRequest. -/
structure TelemostCreateRequest where
  WaitingRoomLevel : String
  LiveStream : Option RequestLiveStream
  Cohosts : List Cohost
deriving DecidableEq, Repr

/-- The anonymous struct behind TelemostError.Details. -/
structure ErrorDetails where
  Emails : String
deriving DecidableEq, Repr

/-- The struct TelemostError. -/
structure TelemostError where
  Error : String
  Message : String
  Description : String
  Details : ErrorDetails
deriving DecidableEq, Repr

/-- Filling the live-stream struct of a meeting from a tree. -/
def MeetingLiveStream.fromJson (cur : MeetingLiveStream) : Json → Option MeetingLiveStream
  | .null => some cur
  | .obj ms =>
    decodeMembers ["watch_url"]
      (fun _ v c => (decodeString c.WatchURL v).map fun x => { c with WatchURL := x }) ms cur
  | _ => none

/-- Storing one member into the field of a TelemostMeeting it selects; for the pointer field
`null` stores nil and an object fills the struct pointed to, allocated when the field is nil. -/
def TelemostMeeting.store (i : Nat) (v : Json) (cur : TelemostMeeting) : Option TelemostMeeting :=
  match i with
  | 0 => (decodeString cur.ID v).map fun x => { cur with ID := x }
  | 1 => (decodeString cur.JoinURL v).map fun x => { cur with JoinURL := x }
  | _ =>
    match v with
    | .null => some { cur with LiveStream := none }
    | _ =>
      (MeetingLiveStream.fromJson (cur.LiveStream.getD ⟨""⟩) v).map
        fun x => { cur with LiveStream := some x }

/-- Filling a TelemostMeeting from a tree. -/
def TelemostMeeting.fromJson (cur : TelemostMeeting) : Json → Option TelemostMeeting
  | .null => some cur
  | .obj ms => decodeMembers ["id", "join_url", "live_stream"] TelemostMeeting.store ms cur
  | _ => none

/-- The call json.Unmarshal(body, &meeting) on a fresh variable. -/
def unmarshalTelemostMeeting (lib : GoLib) (data : Bytes) : Option TelemostMeeting :=
  match lib.parse data with
  | none => none
  | some j => TelemostMeeting.fromJson ⟨"", "", none⟩ j

/-- Filling the details struct of a provider error from a tree. -/
def ErrorDetails.fromJson (cur : ErrorDetails) : Json → Option ErrorDetails
  | .null => some cur
  | .obj ms =>
    decodeMembers ["emails"]
      (fun _ v c => (decodeString c.Emails v).map fun x => { c with Emails := x }) ms cur
  | _ => none

/-- Storing one member into the field of a TelemostError it selects. -/
def TelemostError.store (i : Nat) (v : Json) (cur : TelemostError) : Option TelemostError :=
  match i with
  | 0 => (decodeString cur.Error v).map fun x => { cur with Error := x }
  | 1 => (decodeString cur.Message v).map fun x => { cur with Message := x }
  | 2 => (decodeString cur.Description v).map fun x => { cur with Description := x }
  | _ => (ErrorDetails.fromJson cur.Details v).map fun x => { cur with Details := x }

/-- Filling a TelemostError from a tree. -/
def TelemostError.fromJson (cur : TelemostError) : Json → Option TelemostError
  | .null => some cur
  | .obj ms =>
    decodeMembers ["error", "message", "description", "details"] TelemostError.store ms cur
  | _ => none

/-- The call json.Unmarshal(body, &telemostErr) on a fresh variable. -/
def unmarshalTelemostError (lib : GoLib) (data : Bytes) : Option TelemostError :=
  match lib.parse data with
  | none => none
  | some j => TelemostError.fromJson ⟨"", "", "", ⟨""⟩⟩ j

/-- The tree json.Marshal builds for the live-stream block of a request. -/
def RequestLiveStream.toJson (l : RequestLiveStream) : Json :=
  Json.obj (omitEmpty "access_level" l.AccessLevel ++ omitEmpty "title" l.Title
    ++ omitEmpty "description" l.Description)

/-- The tree json.Marshal builds for a TelemostCreateRequest; every member is `omitempty`. -/
def TelemostCreateRequest.toJson (r : TelemostCreateRequest) : Json :=
  Json.obj (omitEmpty "waiting_room_level" r.WaitingRoomLevel
    ++ (match r.LiveStream with
        | none => []
        | some l => [("live_stream", l.toJson)])
    ++ (if r.Cohosts.isEmpty then []
        else [("cohosts", Json.arr (r.Cohosts.map fun c => Json.obj [("email", Json.str c.Email)]))]))

/-- What the HTTP client reports for a request to the provider. -/
inductive TransportResult where
  /-- The call client.Do returned an error. -/
  | doError (msg : String) : TransportResult
  /-- The call io.ReadAll on the response body returned an error. -/
  | readError (msg : String) : TransportResult
  /-- A response with its status code and its whole body. -/
  | response (status : Nat) (body : Bytes) : TransportResult

/-- The network between the plugin and the provider. -/
abbrev Net := ProviderRequest → TransportResult

/-- The method TelemostClient.CreateMeeting on a receiver that may be nil. The receiver is first
dereferenced when the Authorization header is set, before anything is sent. The two error
returns before that point cannot be taken: json.Marshal does not fail on a struct of strings,
nor http.NewRequest on the constant method and URL. -/
def CreateMeeting (lib : GoLib) (net : Net) (tc : Option TelemostClient)
    (req : TelemostCreateRequest) (w : World) : World × Outcome TelemostMeeting :=
  let url := telemostAPIBaseURL ++ "/conferences"
  let jsonData := lib.render req.toJson
  match tc with
  | none => (w, .panic)
  | some c =>
    let httpReq : ProviderRequest :=
      ⟨"POST", url, "OAuth " ++ c.oauthToken, "application/json", jsonData⟩
    let w1 : World := { w with calls := w.calls ++ [httpReq] }
    match net httpReq with
    | .doError e => (w1, .error ("failed to make request: " ++ e))
    | .readError e => (w1, .error ("failed to read response body: " ++ e))
    | .response status body =>
      if status ≠ 201 then
        match unmarshalTelemostError lib body with
        | none =>
          (w1, .error ("failed to create meeting, status: " ++ formatInt status ++ ", body: "
            ++ body))
        | some telemostErr =>
          (w1, .error ("telemost API error: " ++ telemostErr.Error ++ " - "
            ++ telemostErr.Message))
      else
        match unmarshalTelemostMeeting lib body with
        | none => (w1, .error ("failed to unmarshal response: " ++ lib.jsonError body))
        | some meeting => (w1, .ok meeting)

/-- The loop `for i, email := range cohosts` of CreateMeetingWithDefaults, from index `i` on:
each step assigns the Email field of entry `i` of the slice. -/
def assignEmails : List Cohost → Nat → List String → List Cohost
  | cs, _, [] => cs
  | cs, i, email :: rest =>
    assignEmails (cs.set i { cs.getD i ⟨""⟩ with Email := email }) (i + 1) rest

/-- The request CreateMeetingWithDefaults builds before it calls CreateMeeting. -/
def defaultsRequest (config : configuration) (title description : String)
    (cohosts : List String) : TelemostCreateRequest :=
  let req : TelemostCreateRequest := ⟨config.GetDefaultWaitingRoomLevel, none, []⟩
  let req : TelemostCreateRequest :=
    if config.IsLiveStreamEnabled then
      { req with
        LiveStream := some ⟨config.GetDefaultLiveStreamAccessLevel, title, description⟩ }
    else req
  if cohosts.length > 0 then
    { req with Cohosts := assignEmails (List.replicate cohosts.length ⟨""⟩) 0 cohosts }
  else req

/-- The method TelemostClient.CreateMeetingWithDefaults. -/
def CreateMeetingWithDefaults (lib : GoLib) (net : Net) (tc : Option TelemostClient)
    (config : configuration) (title description : String) (cohosts : List String) (w : World) :
    World × Outcome TelemostMeeting :=
  CreateMeeting lib net tc (defaultsRequest config title description cohosts) w

/-! ## Slash commands (command package) -/

namespace Command

/-- The struct TelemostMeeting of the command package. -/
structure TelemostMeeting where
  ID : String
  JoinURL : String
  LiveStream : Option MeetingLiveStream
deriving DecidableEq, Repr

/-- The fields of model.CommandArgs the handler reads. -/
structure CommandArgs where
  Command : String
  UserId : String
  ChannelId : String
deriving DecidableEq, Repr

/-- The fields of model.CommandResponse the handler sets. -/
structure CommandResponse where
  ResponseType : String
  Text : String
  Props : List (String × String)
deriving DecidableEq, Repr

/-- The constant model.CommandResponseTypeEphemeral. -/
def CommandResponseTypeEphemeral : String := "ephemeral"

/-- The constant model.CommandResponseTypeInChannel. -/
def CommandResponseTypeInChannel : String := "in_channel"

/-- The interface the handler holds on the plugin: CreateMeetingWithUserToken, acting on the
world. -/
abbrev MeetingCreator := String → String → String → World → World × Outcome TelemostMeeting

/-- The predicate unicode.IsSpace. -/
def isSpace (c : Char) : Bool :=
  c.toNat ∈ [0x09, 0x0A, 0x0B, 0x0C, 0x0D, 0x20, 0x85, 0xA0, 0x1680, 0x2028, 0x2029, 0x202F,
    0x205F, 0x3000] || (0x2000 ≤ c.toNat && c.toNat ≤ 0x200A)

/-- The scan of strings.Fields: `cur` holds the runes of the field being read, last first. -/
def fieldsFrom : List Char → List Char → List String
  | [], cur => if cur.isEmpty then [] else [String.mk cur.reverse]
  | c :: cs, cur =>
    if isSpace c then
      if cur.isEmpty then fieldsFrom cs [] else String.mk cur.reverse :: fieldsFrom cs []
    else fieldsFrom cs (c :: cur)

/-- The function strings.Fields. -/
def Fields (s : String) : List String := fieldsFrom s.data []

/-- The method KV.Get of the pluginapi client with a byte slice as target: the slice stays nil
when the key has no entry or an empty value. -/
def clientKVGet (f : Faults) (w : World) (key : String) : Except String (Option Bytes) :=
  match KVGet f w key with
  | .error e => .error e
  | .ok none => .ok none
  | .ok (some data) => if data = "" then .ok none else .ok (some data)

/-- The method KV.Delete of the pluginapi client. -/
def clientKVDelete (f : Faults) (w : World) (key : String) : World × Option String :=
  KVDelete f w key

/-- The call json.Unmarshal(userToken, &tokenData) into a nil map: the members read, the empty
list for a map left nil by `null`; any other value is an UnmarshalTypeError. -/
def unmarshalMap (lib : GoLib) (data : Bytes) : Option (List (String × Json)) :=
  match lib.parse data with
  | none => none
  | some .null => some []
  | some (.obj ms) => some ms
  | some _ => none

/-- Indexing the map: of several members with one key the last one read stays. -/
def mapIndex (ms : List (String × Json)) (key : String) : Option Json :=
  (ms.reverse.find? fun kv => kv.1 == key).map Prod.snd

/-- The type assertion `.(string)` on a map entry. -/
def assertString : Option Json → String × Bool
  | some (.str s) => (s, true)
  | _ => ("", false)

/-- The help text. -/
def helpText : String :=
  "**Available commands:**\n- `/telemost start` - Start a new meeting (requires authentication)\n- `/telemost connect` - Authenticate with Telemost OAuth\n- `/telemost disconnect` - Remove Telemost authentication\n- `/telemost help` - Show this help message"

/-- The text of the `start` command for a user without token. -/
def startNotAuthenticatedText : String :=
  "**Telemost not authenticated!**\n\nPlease authenticate with Telemost first:\n1. Use `/telemost connect` to start OAuth authentication\n2. Complete the OAuth flow in your browser\n3. Try `/telemost start` again"

/-- The text of the `start` command for a stored value that is not a JSON object. -/
def authenticationErrorText : String :=
  "**Authentication error!** Please reconnect with `/telemost connect`."

/-- The text of the `start` command for a stored object without a non-empty access token. -/
def invalidTokenText : String :=
  "**Invalid token!** Please reconnect with `/telemost connect`."

/-- The text of the `connect` command for a user with a stored token. -/
def alreadyConnectedText : String :=
  "**✅ Already Connected to Telemost**\n\nYou are already authenticated with Telemost. You can:\n- Use `/telemost start` to create a meeting\n- Use `/telemost disconnect` to remove authentication"

/-- The text of the `disconnect` command for a user without token. -/
def notAuthenticatedText : String :=
  "**Not authenticated!** You are not currently authenticated with Telemost. Use `/telemost connect` to authenticate first."

/-- The text of the `disconnect` command when the deletion fails. -/
def disconnectFailedText : String :=
  "**❌ Failed to disconnect!** There was an error removing your authentication. Please try again."

/-- The text of the `disconnect` command after the deletion. -/
def disconnectedText : String :=
  "**✅ Disconnected from Telemost**\n\nYour Telemost authentication has been removed. Use `/telemost connect` to authenticate again."

/-- An ephemeral response with a text. -/
def ephemeral (text : String) : Option CommandResponse × Option String :=
  (some ⟨CommandResponseTypeEphemeral, text, []⟩, none)

/-- The method Handler.Handle. The result is the pair of the response and the AppError. -/
def Handle (lib : GoLib) (f : Faults) (plugin : MeetingCreator) (w : World)
    (args : CommandArgs) : World × Outcome (Option CommandResponse × Option String) :=
  let fields := Fields args.Command
  if fields.length < 2 then (w, .ok (ephemeral helpText))
  else
    let subcommand := lib.toLower (fields.getD 1 "")
    if subcommand = "start" then
      match clientKVGet f w ("telemost_user_token_" ++ args.UserId) with
      | .error _ | .ok none =>
        (w, .ok (ephemeral startNotAuthenticatedText))
      | .ok (some userToken) =>
        match unmarshalMap lib userToken with
        | none =>
          (w, .ok (ephemeral authenticationErrorText))
        | some tokenData =>
          let (accessToken, ok) := assertString (mapIndex tokenData "access_token")
          if !ok || accessToken = "" then
            (w, .ok (ephemeral invalidTokenText))
          else
            match plugin accessToken "Telemost Meeting" "" w with
            | (w1, .panic) => (w1, .panic)
            | (w1, .error err) =>
              (w1, .ok (ephemeral ("**❌ Failed to create meeting!**\n\nError: " ++ err
                ++ "\n\nPlease try again or contact support.")))
            | (w1, .ok meeting) =>
              (w1, .ok (some ⟨CommandResponseTypeInChannel, "",
                [("type", "custom_telemost_meeting"), ("joinURL", meeting.JoinURL),
                  ("meetingID", meeting.ID), ("title", "Telemost Meeting")]⟩, none))
    else if subcommand = "connect" then
      match clientKVGet f w ("telemost_user_token_" ++ args.UserId) with
      | .ok (some _) =>
        (w, .ok (ephemeral alreadyConnectedText))
      | _ =>
        let oauthURL :=
          "/plugins/com.mattermost.plugin-telemost/oauth/start?channel_id=" ++ args.ChannelId
        (w, .ok (ephemeral ("**🔗 Telemost Authentication Required**\n\nTo connect to Telemost, please complete the OAuth authentication:\n\n[**Click here to authenticate with Telemost**]("
          ++ oauthURL
          ++ ")\n\nAfter authentication, you'll be able to create meetings using `/telemost start`.")))
    else if subcommand = "disconnect" then
      match clientKVGet f w ("telemost_user_token_" ++ args.UserId) with
      | .error _ | .ok none =>
        (w, .ok (ephemeral notAuthenticatedText))
      | .ok (some _) =>
        let tokenKey := "telemost_user_token_" ++ args.UserId
        match clientKVDelete f w tokenKey with
        | (w1, some _) =>
          (w1, .ok (ephemeral disconnectFailedText))
        | (w1, none) =>
          (w1, .ok (ephemeral disconnectedText))
    else if subcommand = "help" then (w, .ok (ephemeral helpText))
    else
      (w, .ok (ephemeral ("Unknown command: `" ++ subcommand
        ++ "`. Use `/telemost help` to see available commands.")))

end Command

/-! ## Wiring of the command handler (plugin.go) -/

/-- The method Plugin.CreateMeetingWithUserToken. -/
def CreateMeetingWithUserToken (lib : GoLib) (net : Net) (p : Plugin)
    (token title description : String) (w : World) : World × Outcome Command.TelemostMeeting :=
  let client := NewTelemostClient token
  match CreateMeetingWithDefaults lib net (some client) p.getConfiguration title description [] w with
  | (w1, .panic) => (w1, .panic)
  | (w1, .error err) => (w1, .error err)
  | (w1, .ok meeting) =>
    let result : Command.TelemostMeeting := ⟨meeting.ID, meeting.JoinURL, none⟩
    let result : Command.TelemostMeeting :=
      match meeting.LiveStream with
      | none => result
      | some l => { result with LiveStream := some ⟨l.WatchURL⟩ }
    (w1, .ok result)

/-- The method Plugin.ExecuteCommand, with the handler NewCommandHandler builds in OnActivate. -/
def ExecuteCommand (lib : GoLib) (net : Net) (f : Faults) (p : Plugin) (w : World)
    (args : Command.CommandArgs) :
    World × Outcome (Option Command.CommandResponse × Option String) :=
  match Command.Handle lib f (CreateMeetingWithUserToken lib net p) w args with
  | (w1, .panic) => (w1, .panic)
  | (w1, .error e) => (w1, .error e)
  | (w1, .ok (response, appErr)) =>
    match appErr with
    | some e => (w1, .ok (none, some e))
    | none => (w1, .ok (response, none))

/-! ## HTTP API (telemost_style_api.go) -/

/-- The function strings.HasPrefix. -/
def HasPrefix (s pre : String) : Bool := pre.data.isPrefixOf s.data

/-- The function strings.TrimPrefix. -/
def TrimPrefix (s pre : String) : String :=
  if HasPrefix s pre then String.mk (s.data.drop pre.data.length) else s

/-- The scan of strings.Contains: whether the runes `sub` occur in a row from some position of
the text on. -/
def containsChars (sub : List Char) : List Char → Bool
  | [] => sub.isEmpty
  | c :: cs => sub.isPrefixOf (c :: cs) || containsChars sub cs

/-- The function strings.Contains. -/
def Contains (s sub : String) : Bool := containsChars sub.data s.data

/-- The scan of filepath.Ext from the end of the path: `suffix` holds the runes passed so far. -/
def extScan : List Char → List Char → String
  | [], _ => ""
  | c :: cs, suffix =>
    if c = '/' then ""
    else if c = '.' then String.mk ('.' :: suffix)
    else extScan cs (c :: suffix)

/-- The function filepath.Ext, with the slash as path separator. -/
def Ext (path : String) : String := extScan path.data.reverse []

/-- The host call API.ReadFile: the content of a file of the plugin bundle, or an error. -/
abbrev Files := String → Except String Bytes

/-- The function http.NotFound. -/
def httpNotFound : Response := httpError "404 page not found" 404

/-- The Content-Type handleAssets sets for a lowered file extension. -/
def assetContentType (ext : String) : String :=
  if ext = ".svg" then "image/svg+xml"
  else if ext = ".png" then "image/png"
  else if ext = ".jpg" ∨ ext = ".jpeg" then "image/jpeg"
  else if ext = ".gif" then "image/gif"
  else "application/octet-stream"

/-- The method Plugin.handleAssets on the path of the request URL. The first component of the
result lists the paths handed to ReadFile, in order. -/
def handleAssets (lib : GoLib) (files : Files) (path : String) : List String × Response :=
  let assetPath : Option String :=
    if HasPrefix path "/assets/" then some (TrimPrefix path "/assets/")
    else if Contains path "telemost-icon.svg" then some "telemost-icon.svg"
    else none
  match assetPath with
  | none => ([], httpNotFound)
  | some assetPath =>
    if Contains assetPath ".." || Contains assetPath "/" then ([], httpError "Forbidden" 403)
    else
      let fullPath := lib.filepathJoin "assets" assetPath
      match files fullPath with
      | .error _ => ([fullPath], httpNotFound)
      | .ok assetData =>
        let ext := lib.toLower (Ext assetPath)
        ([fullPath],
          ⟨200, [("Content-Type", assetContentType ext),
            ("Cache-Control", "public, max-age=31536000")], assetData⟩)

/-- The anonymous struct handleCreateMeeting decodes its request body into. -/
structure MeetingBody where
  Title : String
  Description : String
  Cohosts : List String
deriving DecidableEq, Repr

/-- Storing a value into a slice of strings: `null` stores nil, an array stores its elements,
each into a fresh string. -/
def decodeStrings : Json → Option (List String)
  | .null => some []
  | .arr items => items.mapM (decodeString "")
  | _ => none

/-- Storing one member into the field of a MeetingBody it selects. -/
def MeetingBody.store (i : Nat) (v : Json) (cur : MeetingBody) : Option MeetingBody :=
  match i with
  | 0 => (decodeString cur.Title v).map fun x => { cur with Title := x }
  | 1 => (decodeString cur.Description v).map fun x => { cur with Description := x }
  | _ => (decodeStrings v).map fun x => { cur with Cohosts := x }

/-- Filling a MeetingBody from a tree. -/
def MeetingBody.fromJson (cur : MeetingBody) : Json → Option MeetingBody
  | .null => some cur
  | .obj ms => decodeMembers ["title", "description", "cohosts"] MeetingBody.store ms cur
  | _ => none

/-- The call json.NewDecoder(r.Body).Decode(&req) of handleCreateMeeting. -/
def decodeMeetingBody (lib : GoLib) (body : Bytes) : Option MeetingBody :=
  match lib.decodeFirst body with
  | none => none
  | some j => MeetingBody.fromJson ⟨"", "", []⟩ j

/-- The tree json.Marshal builds for a TelemostMeeting. -/
def TelemostMeeting.toJson (m : TelemostMeeting) : Json :=
  Json.obj ([("id", Json.str m.ID), ("join_url", Json.str m.JoinURL)]
    ++ (match m.LiveStream with
        | none => []
        | some l => [("live_stream", Json.obj [("watch_url", Json.str l.WatchURL)])]))

/-- What handleCreateMeeting reads from its request. -/
structure MeetingRequest where
  Method : String
  Body : Bytes
  /-- The header X-User-ID, empty when absent. -/
  UserID : String
deriving DecidableEq, Repr

/-- The method Plugin.handleCreateMeeting. The receiver of CreateMeetingWithDefaults is the
plugin-wide client, nil or not. -/
def handleCreateMeeting (lib : GoLib) (net : Net) (p : Plugin) (w : World)
    (r : MeetingRequest) : World × Outcome Response :=
  if r.Method ≠ "POST" then (w, .ok (httpError "Method not allowed" 405))
  else
    match decodeMeetingBody lib r.Body with
    | none => (w, .ok (httpError "Invalid request body" 400))
    | some req =>
      let userID := r.UserID
      if userID = "" then (w, .ok (httpError "User not authenticated" 401))
      else
        match CreateMeetingWithDefaults lib net p.telemostClient p.getConfiguration req.Title
            req.Description req.Cohosts w with
        | (w1, .panic) => (w1, .panic)
        | (w1, .error _) => (w1, .ok (httpError "Failed to create meeting" 500))
        | (w1, .ok meeting) =>
          (w1, .ok ⟨200, [("Content-Type", "application/json")],
            lib.render meeting.toJson ++ "\n"⟩)

/-! ## A concrete library for the examples

A small fragment of the standard library, enough to run the handlers on concrete requests: JSON
objects whose members are strings without escapes, the RFC 3339 texts of a few instants, and
ASCII texts. -/

namespace Example

/-- The characters of a string literal up to its closing quote; escapes are outside the
fragment. -/
def readString : List Char → Option (List Char × List Char)
  | [] => none
  | c :: rest =>
    if c = '"' then some ([], rest)
    else if c = '\\' then none
    else
      match readString rest with
      | none => none
      | some (s, r) => some (c :: s, r)

/-- The members of an object whose values are string literals, after the opening brace. -/
def readMembers : Nat → List Char → Option (List (String × Json))
  | 0, _ => none
  | n + 1, cs =>
    match cs with
    | '"' :: rest =>
      match readString rest with
      | some (k, ':' :: '"' :: rest1) =>
        match readString rest1 with
        | some (v, [ '}' ]) => some [(String.mk k, Json.str (String.mk v))]
        | some (v, ',' :: rest2) =>
          match readMembers n rest2 with
          | none => none
          | some ms => some ((String.mk k, Json.str (String.mk v)) :: ms)
        | _ => none
      | _ => none
    | _ => none

/-- Reading a JSON text of the fragment. -/
def parse (s : String) : Option Json :=
  match s.data with
  | [ '{', '}' ] => some (Json.obj [])
  | '{' :: rest =>
    match readMembers rest.length rest with
    | none => none
    | some ms => some (Json.obj ms)
  | _ => none

/-- Writing the members of an object of the fragment. -/
def renderMembers : List (String × Json) → String
  | [] => ""
  | [(k, Json.str v)] => "\"" ++ k ++ "\":\"" ++ v ++ "\""
  | (k, Json.str v) :: rest => "\"" ++ k ++ "\":\"" ++ v ++ "\"," ++ renderMembers rest
  | _ :: rest => renderMembers rest

/-- Writing a JSON text of the fragment. -/
def render : Json → String
  | .obj ms => "\x7b" ++ renderMembers ms ++ "\x7d"
  | .str v => "\"" ++ v ++ "\""
  | _ => "null"

/-- The instant 2023-11-14T22:13:20Z. -/
def t0 : Time := 1700000000 * Second

/-- RFC 3339 texts of the instants of the examples. -/
def formatTime (t : Time) : Option String :=
  if t = t0 - 24 * Hour then some "2023-11-13T22:13:20Z"
  else if t = t0 then some "2023-11-14T22:13:20Z"
  else if t = t0 + 10 * Minute then some "2023-11-14T22:23:20Z"
  else if t = t0 + 24 * Hour then some "2023-11-15T22:13:20Z"
  else none

/-- The instants of the RFC 3339 texts of the examples. -/
def parseTime (s : String) : Option Time :=
  if s = "2023-11-13T22:13:20Z" then some (t0 - 24 * Hour)
  else if s = "2023-11-14T22:13:20Z" then some t0
  else if s = "2023-11-14T22:23:20Z" then some (t0 + 10 * Minute)
  else if s = "2023-11-15T22:13:20Z" then some (t0 + 24 * Hour)
  else none

/-- The alphabet of base64.URLEncoding. -/
def alphabet : List Char :=
  "ABCDEFGHIJKLMNOPQRSTUVWXYZabcdefghijklmnopqrstuvwxyz0123456789-_".data

/-- The character of a six-bit value. -/
def sextet (n : Nat) : Char := alphabet.getD (n % 64) 'A'

/-- The encoder of base64.URLEncoding, with padding. -/
def base64URLChars : List Nat → List Char
  | [] => []
  | [a] => [sextet (a / 4), sextet (a % 4 * 16), '=', '=']
  | [a, b] => [sextet (a / 4), sextet (a % 4 * 16 + b / 16), sextet (b % 16 * 4), '=']
  | a :: b :: c :: rest =>
    sextet (a / 4) :: sextet (a % 4 * 16 + b / 16) :: sextet (b % 16 * 4 + c / 64)
      :: sextet (c % 64) :: base64URLChars rest

/-- The escape of url.QueryEscape on ASCII text. -/
def queryEscapeChar (c : Char) : List Char :=
  if c.isAlphanum || c = '-' || c = '_' || c = '.' || c = '~' then [c]
  else if c = ' ' then [ '+' ]
  else [ '%', "0123456789ABCDEF".data.getD (c.toNat / 16 % 16) '0',
    "0123456789ABCDEF".data.getD (c.toNat % 16) '0']

/-- The lowering of strings.ToLower on the runes that lower onto ASCII letters; other runes are
left as they are. -/
def lowerChar (c : Char) : Char :=
  if 'A'.toNat ≤ c.toNat ∧ c.toNat ≤ 'Z'.toNat then Char.ofNat (c.toNat + 32)
  else if c.toNat = 0x130 then 'i'
  else if c.toNat = 0x212A then 'k'
  else c

/-- The UTF-8 bytes of a rune. -/
def utf8Bytes (c : Char) : List Nat :=
  let n := c.toNat
  if n < 0x80 then [n]
  else if n < 0x800 then [0xC0 + n / 64, 0x80 + n % 64]
  else if n < 0x10000 then [0xE0 + n / 4096, 0x80 + n / 64 % 64, 0x80 + n % 64]
  else [0xF0 + n / 262144, 0x80 + n / 4096 % 64, 0x80 + n / 64 % 64, 0x80 + n % 64]

/-- The escape of one rune in a Location header: ASCII stays, every other byte becomes a percent
sign and two lower-case hexadecimal digits. -/
def hexEscapeChar (c : Char) : List Char :=
  if c.toNat < 0x80 then [c]
  else (utf8Bytes c).flatMap fun b =>
    [ '%', "0123456789abcdef".data.getD (b / 16 % 16) '0',
      "0123456789abcdef".data.getD (b % 16) '0']

/-- The escape of one rune in the anchor of a redirect page. -/
def htmlEscapeChar (c : Char) : List Char :=
  if c.toNat = 38 then "&amp;".data
  else if c.toNat = 60 then "&lt;".data
  else if c.toNat = 62 then "&gt;".data
  else if c.toNat = 34 then "&#34;".data
  else if c.toNat = 39 then "&#39;".data
  else [c]

/-- The library of the examples. -/
def lib : GoLib where
  render := render
  parse := parse
  decodeFirst := parse
  formatTime := formatTime
  parseTime := parseTime
  base64URL := fun bs => String.mk (base64URLChars bs)
  queryEscape := fun s => String.mk (s.data.flatMap queryEscapeChar)
  toLower := fun s => String.mk (s.data.map lowerChar)
  jsonError := fun data =>
    if data = "" then "unexpected end of JSON input" else "invalid character in JSON input"
  filepathJoin := fun dir name => if name = "" ∨ name = "." then dir else dir ++ "/" ++ name
  hexEscapeNonASCII := fun s => String.mk (s.data.flatMap hexEscapeChar)
  htmlEscape := fun s => String.mk (s.data.flatMap htmlEscapeChar)

/-- A body of the completion request: access token `tok`, and the state of thirty-two zero
bytes. -/
def completeBody : Bytes :=
  "\x7b\"access_token\":\"tok\",\"state\":\"AAAAAAAAAAAAAAAAAAAAAAAAAAAAAAAAAAAAAAAAAAA=\"\x7d"

/-- The stored text of a state for user `u1` in channel `c1` that expires ten minutes after
`t0`. -/
def stateText : Bytes :=
  "\x7b\"user_id\":\"u1\",\"channel_id\":\"c1\",\"expires_at\":\"2023-11-14T22:23:20Z\"\x7d"

/-- The stored text of a token of user `u1` that expired a day before `t0`. -/
def expiredTokenText : Bytes :=
  "\x7b\"access_token\":\"old\",\"expires_at\":\"2023-11-13T22:13:20Z\",\"user_id\":\"u1\"\x7d"

/-- A store with one entry. -/
def worldWith (key : String) (value : Bytes) : World :=
  ⟨fun k => if k = key then some value else none, [], []⟩

/-- The body of the provider in the scenario of a created meeting. -/
def meetingBody : Bytes := "\x7b\"id\":\"abc\",\"join_url\":\"https://x/y\"\x7d"

/-- The body of the provider in the scenario of a refused request. -/
def quotaBody : Bytes := "\x7b\"error\":\"forbidden\",\"message\":\"no quota\"\x7d"

/-- The stored text of a token of user `u1` with access token `tok` that expires a day after
`t0`. -/
def validTokenText : Bytes :=
  "\x7b\"access_token\":\"tok\",\"expires_at\":\"2023-11-15T22:13:20Z\",\"user_id\":\"u1\"\x7d"

/-- A body of a request to create a meeting. -/
def meetingRequestBody : Bytes := "\x7b\"title\":\"Standup\",\"description\":\"Daily\"\x7d"

/-- A valid configuration with a plugin-wide OAuth token. -/
def configWithToken : configuration :=
  ⟨"plugin-token", "client-1", "https://mm.example.com", "PUBLIC", false, ""⟩

/-- A valid configuration whose plugin-wide OAuth token is empty. -/
def configWithoutToken : configuration :=
  ⟨"", "client-1", "https://mm.example.com", "PUBLIC", false, ""⟩

/-- A provider that answers every request with 201 and the body `meetingBody`. -/
def createdNet : Net := fun _ => TransportResult.response 201 meetingBody

/-- A bundle with the icon as its only file. -/
def iconFiles : Files := fun path =>
  if path = "assets/telemost-icon.svg" then .ok "<svg/>" else .error "no such file"

/-- The plugin after OnConfigurationChange has loaded `configWithToken`. -/
def pluginWithToken : Plugin :=
  (Plugin.OnConfigurationChange ⟨none, none⟩ (.ok configWithToken)).1

/-- The plugin after OnConfigurationChange has loaded `configWithoutToken`. -/
def pluginWithoutToken : Plugin :=
  (Plugin.OnConfigurationChange ⟨none, none⟩ (.ok configWithoutToken)).1

/-- A store without entries, no posts, no provider calls. -/
def emptyWorld : World := ⟨fun _ => none, [], []⟩

/-- A plugin configured for the examples. -/
def plugin : Plugin :=
  ⟨some ⟨"", "client-1", "https://mm.example.com", "PUBLIC", true, "PUBLIC"⟩, none⟩

end Example


/-! ## Keys of the store -/

/-- A token key is never a state key: the two prefixes differ within their first twenty characters. -/
theorem tokenKey_ne_stateKey (u s : String) :
    userTokenKeyPrefix ++ u ≠ oauthStateKeyPrefix ++ s := by
  intro h
  have h1 := congrArg (fun t => t.data.take 20) h
  simp [userTokenKeyPrefix, oauthStateKeyPrefix, String.data_append] at h1

/-- Different users have different token keys. -/
theorem tokenKey_injective (u v : String) (h : userTokenKeyPrefix ++ u = userTokenKeyPrefix ++ v) :
    u = v := by
  have h1 := congrArg String.data h
  simp only [String.data_append, List.append_cancel_left_eq] at h1
  exact String.ext h1

/-! ## Host calls -/

/-- A Get that does not fail returns the entry of the key. -/
theorem KVGet_ok (f : Faults) (w : World) (key : String) (h : f.kvGet key = none) :
    KVGet f w key = .ok (w.kv key) := by
  simp [KVGet, h]

/-- A Set that does not fail updates the entry of the key. -/
theorem KVSet_ok (f : Faults) (w : World) (key : String) (v : Bytes) (h : f.kvSet key = none) :
    KVSet f w key v = ({ w with kv := Function.update w.kv key (some v) }, none) := by
  simp [KVSet, h]

/-- A Delete that does not fail removes the entry of the key. -/
theorem KVDelete_ok (f : Faults) (w : World) (key : String) (h : f.kvDelete key = none) :
    KVDelete f w key = ({ w with kv := Function.update w.kv key none }, none) := by
  simp [KVDelete, h]

/-- A Delete leaves the entries of all other keys as they were. -/
theorem KVDelete_kv_of_ne (f : Faults) (w : World) (key k : String) (h : k ≠ key) :
    (KVDelete f w key).1.kv k = w.kv k := by
  unfold KVDelete
  cases f.kvDelete key <;> simp [Function.update, h]

/-- A Delete creates no post. -/
theorem KVDelete_posts (f : Faults) (w : World) (key : String) :
    (KVDelete f w key).1.posts = w.posts := by
  unfold KVDelete
  cases f.kvDelete key <;> rfl

/-- A Delete sends nothing to the provider. -/
theorem KVDelete_calls (f : Faults) (w : World) (key : String) :
    (KVDelete f w key).1.calls = w.calls := by
  unfold KVDelete
  cases f.kvDelete key <;> rfl

/-- Creating a post leaves the store as it was. -/
theorem CreatePost_kv (f : Faults) (w : World) (post : Post) :
    (CreatePost f w post).1.kv = w.kv := by
  unfold CreatePost
  cases f.createPost <;> rfl

/-- Creating a post sends nothing to the provider. -/
theorem CreatePost_calls (f : Faults) (w : World) (post : Post) :
    (CreatePost f w post).1.calls = w.calls := by
  unfold CreatePost
  cases f.createPost <;> rfl

/-! ## The handlers on their main paths -/

/-- The main path of handleOAuthStart: the state is stored under its key and the browser is redirected. -/
theorem handleOAuthStart_issued (lib : GoLib) (p : Plugin) (f : Faults) (rnd : List Nat)
    (now : Time) (w : World) (method userID channelID : String) (sb : Bytes)
    (hu : userID ≠ "") (hc : channelID ≠ "")
    (hm : marshalOAuthState lib ⟨userID, channelID, Time.Add now (10 * Minute)⟩ = some sb)
    (hset : f.kvSet (oauthStateKeyPrefix ++ lib.base64URL rnd) = none) :
    handleOAuthStart lib p f (.ok rnd) now w ⟨method, userID, channelID⟩
      = ({ w with kv := Function.update w.kv (oauthStateKeyPrefix ++ lib.base64URL rnd) (some sb) },
          httpRedirect lib method (oauthURL lib p.getConfiguration (lib.base64URL rnd)) 307) := by
  simp [handleOAuthStart, hu, hc, hm, KVSet, hset]

/-- The main path of handleOAuthComplete: the token is stored, the state deleted, the post created. -/
theorem handleOAuthComplete_stored (lib : GoLib) (f : Faults) (now1 now2 : Time) (w : World)
    (body : Bytes) (req : OAuthCompleteRequest) (st : OAuthState) (tb : Bytes)
    (hbody : decodeOAuthCompleteRequest lib body = some req)
    (hget : f.kvGet (oauthStateKeyPrefix ++ req.State) = none)
    (hst : unmarshalOAuthState lib (bytesOf (w.kv (oauthStateKeyPrefix ++ req.State))) = some st)
    (hnow : Time.After now1 st.ExpiresAt = false)
    (hm : marshalUserToken lib ⟨req.AccessToken, Time.Add now2 (24 * Hour), st.UserID⟩ = some tb)
    (hset : f.kvSet (userTokenKeyPrefix ++ st.UserID) = none) :
    handleOAuthComplete lib f now1 now2 w ⟨"POST", body⟩
      = ((CreatePost f
            (KVDelete f
              { w with kv := Function.update w.kv (userTokenKeyPrefix ++ st.UserID) (some tb) }
              (oauthStateKeyPrefix ++ req.State)).1
            (successPost st)).1,
          successResponse lib) := by
  simp [handleOAuthComplete, hbody, KVGet, hget, hst, hnow, hm, KVSet, hset]

/-- The path of getUserToken for a stored token that has not expired. -/
theorem getUserToken_valid (lib : GoLib) (f : Faults) (now : Time) (w : World) (userID : String)
    (tok : UserToken) (hget : f.kvGet (userTokenKeyPrefix ++ userID) = none)
    (hu : unmarshalUserToken lib (bytesOf (w.kv (userTokenKeyPrefix ++ userID))) = some tok)
    (hnow : Time.After now tok.ExpiresAt = false) :
    getUserToken lib f now w userID = (w, .ok tok) := by
  simp [getUserToken, KVGet, hget, hu, hnow]

/-- The path of getUserToken for a stored token that has expired. -/
theorem getUserToken_expired (lib : GoLib) (f : Faults) (now : Time) (w : World) (userID : String)
    (tok : UserToken) (hget : f.kvGet (userTokenKeyPrefix ++ userID) = none)
    (hu : unmarshalUserToken lib (bytesOf (w.kv (userTokenKeyPrefix ++ userID))) = some tok)
    (hnow : Time.After now tok.ExpiresAt = true) :
    getUserToken lib f now w userID
      = ((KVDelete f w (userTokenKeyPrefix ++ userID)).1, .error "token expired") := by
  simp [getUserToken, KVGet, hget, hu, hnow]

/-- After the main path of handleOAuthComplete the token key holds the token text. -/
theorem handleOAuthComplete_kv_token (f : Faults) (w : World) (u s : String)
    (tb : Bytes) (post : Post) :
    (CreatePost f
      (KVDelete f { w with kv := Function.update w.kv (userTokenKeyPrefix ++ u) (some tb) }
        (oauthStateKeyPrefix ++ s)).1 post).1.kv (userTokenKeyPrefix ++ u) = some tb := by
  rw [CreatePost_kv, KVDelete_kv_of_ne _ _ _ _ (tokenKey_ne_stateKey u s)]
  simp

/-! ## OAuth session manager: claims -/

/-- C1. Round trip of the OAuth flow: for a non-empty user and channel, over a store whose Set
and Get succeed and a library that writes and reads back the state and the token,
handleOAuthStart answers 307 with, as Location, the authorization URL whose last query parameter
is the state (on a GET also with the anchor page for that URL as body); handleOAuthComplete at
the same clock reading with that very state and any access token answers 200; and a following
getUserToken returns the token with exactly that access token and user. -/
theorem oauth_round_trip (lib : GoLib) (p : Plugin) (f1 f2 f3 : Faults) (rnd : List Nat)
    (now : Time) (w : World) (method userID channelID accessToken : String) (body : Bytes)
    (hu : userID ≠ "") (hc : channelID ≠ "")
    (hset1 : f1.kvSet (oauthStateKeyPrefix ++ lib.base64URL rnd) = none)
    (hget2 : f2.kvGet (oauthStateKeyPrefix ++ lib.base64URL rnd) = none)
    (hset2 : f2.kvSet (userTokenKeyPrefix ++ userID) = none)
    (hget3 : f3.kvGet (userTokenKeyPrefix ++ userID) = none)
    (hstate : StateRoundTrips lib ⟨userID, channelID, Time.Add now (10 * Minute)⟩)
    (htoken : TokenRoundTrips lib ⟨accessToken, Time.Add now (24 * Hour), userID⟩)
    (hbody : decodeOAuthCompleteRequest lib body = some ⟨accessToken, lib.base64URL rnd⟩) :
    (handleOAuthStart lib p f1 (.ok rnd) now w ⟨method, userID, channelID⟩).2
        = ⟨307,
            [("Location", lib.hexEscapeNonASCII
              ("https://oauth.yandex.ru/authorize?response_type=token&client_id="
                ++ p.getConfiguration.YandexClientID ++ "&redirect_uri="
                ++ lib.queryEscape (p.getConfiguration.SiteURL
                  ++ "/plugins/com.mattermost.plugin-telemost/oauth/callback")
                ++ "&state=" ++ lib.base64URL rnd))]
              ++ (if method = "GET" ∨ method = "HEAD" then
                    [("Content-Type", "text/html; charset=utf-8")]
                  else []),
            if method = "GET" then
              "<a href=\"" ++ lib.htmlEscape
                ("https://oauth.yandex.ru/authorize?response_type=token&client_id="
                  ++ p.getConfiguration.YandexClientID ++ "&redirect_uri="
                  ++ lib.queryEscape (p.getConfiguration.SiteURL
                    ++ "/plugins/com.mattermost.plugin-telemost/oauth/callback")
                  ++ "&state=" ++ lib.base64URL rnd)
                ++ "\">Temporary Redirect</a>.\n\n"
            else ""⟩ ∧
      (handleOAuthComplete lib f2 now now
        (handleOAuthStart lib p f1 (.ok rnd) now w ⟨method, userID, channelID⟩).1
        ⟨"POST", body⟩).2.status = 200 ∧
      (getUserToken lib f3 now
        (handleOAuthComplete lib f2 now now
          (handleOAuthStart lib p f1 (.ok rnd) now w ⟨method, userID, channelID⟩).1
          ⟨"POST", body⟩).1
        userID).2 = .ok ⟨accessToken, Time.Add now (24 * Hour), userID⟩ := by
  obtain ⟨sb, hsm, hsu⟩ := hstate
  obtain ⟨tb, htm, htu⟩ := htoken
  have hexp1 : Time.After now (Time.Add now (10 * Minute)) = false := by
    simp [Time.After, Time.Add, Minute, Second]
  have hexp2 : Time.After now (Time.Add now (24 * Hour)) = false := by
    simp [Time.After, Time.Add, Hour, Minute, Second]
  rw [handleOAuthStart_issued lib p f1 rnd now w method userID channelID sb hu hc hsm hset1]
  rw [handleOAuthComplete_stored lib f2 now now _ body ⟨accessToken, lib.base64URL rnd⟩
    ⟨userID, channelID, Time.Add now (10 * Minute)⟩ tb hbody hget2
    (by simpa [bytesOf] using hsu) hexp1 htm hset2]
  refine ⟨?_, rfl, ?_⟩
  · simp [httpRedirect, oauthURL, oauthRedirectURL, StatusText, String.append_assoc]
  · rw [getUserToken_valid lib f3 now _ userID ⟨accessToken, Time.Add now (24 * Hour), userID⟩
      hget3 (by rw [handleOAuthComplete_kv_token]; simpa [bytesOf] using htu) hexp2]

set_option maxRecDepth 100000 in
/-- C1, on a concrete run: a GET by user `u1` for channel `c1`, thirty-two zero bytes of
randomness; the state in the Location header is the state in the body of the completion, whose
access token is `tok`. -/
theorem oauth_round_trip_witness :
    (handleOAuthStart Example.lib Example.plugin Faults.none (.ok (List.replicate 32 0)) Example.t0
        Example.emptyWorld ⟨"GET", "u1", "c1"⟩).2
        = ⟨307,
            [("Location", "https://oauth.yandex.ru/authorize?response_type=token&client_id=client-1&redirect_uri=https%3A%2F%2Fmm.example.com%2Fplugins%2Fcom.mattermost.plugin-telemost%2Foauth%2Fcallback&state=AAAAAAAAAAAAAAAAAAAAAAAAAAAAAAAAAAAAAAAAAAA="),
              ("Content-Type", "text/html; charset=utf-8")],
            "<a href=\"https://oauth.yandex.ru/authorize?response_type=token&amp;client_id=client-1&amp;redirect_uri=https%3A%2F%2Fmm.example.com%2Fplugins%2Fcom.mattermost.plugin-telemost%2Foauth%2Fcallback&amp;state=AAAAAAAAAAAAAAAAAAAAAAAAAAAAAAAAAAAAAAAAAAA=\">Temporary Redirect</a>.\n\n"⟩ ∧
      (handleOAuthComplete Example.lib Faults.none Example.t0 Example.t0
        (handleOAuthStart Example.lib Example.plugin Faults.none (.ok (List.replicate 32 0))
          Example.t0 Example.emptyWorld ⟨"GET", "u1", "c1"⟩).1
        ⟨"POST",
          "\x7b\"access_token\":\"tok\",\"state\":\"AAAAAAAAAAAAAAAAAAAAAAAAAAAAAAAAAAAAAAAAAAA=\"\x7d"⟩).2.status
        = 200 ∧
      (getUserToken Example.lib Faults.none Example.t0
        (handleOAuthComplete Example.lib Faults.none Example.t0 Example.t0
          (handleOAuthStart Example.lib Example.plugin Faults.none (.ok (List.replicate 32 0))
            Example.t0 Example.emptyWorld ⟨"GET", "u1", "c1"⟩).1
          ⟨"POST",
            "\x7b\"access_token\":\"tok\",\"state\":\"AAAAAAAAAAAAAAAAAAAAAAAAAAAAAAAAAAAAAAAAAAA=\"\x7d"⟩).1
        "u1").2 = .ok ⟨"tok", Time.Add Example.t0 (24 * Hour), "u1"⟩ :=
  oauth_round_trip Example.lib Example.plugin Faults.none Faults.none Faults.none
    (List.replicate 32 0) Example.t0 Example.emptyWorld "GET" "u1" "c1" "tok"
    "\x7b\"access_token\":\"tok\",\"state\":\"AAAAAAAAAAAAAAAAAAAAAAAAAAAAAAAAAAAAAAAAAAA=\"\x7d"
    (by decide) (by decide) rfl rfl rfl rfl ⟨_, rfl, rfl⟩ ⟨_, rfl, rfl⟩ (by decide)

/-- A start that answers 307 has taken its main path. -/
theorem handleOAuthStart_of_redirect (lib : GoLib) (p : Plugin) (f : Faults) (rnd : List Nat)
    (now : Time) (w : World) (r : StartRequest)
    (h : (handleOAuthStart lib p f (.ok rnd) now w r).2.status = 307) :
    ∃ sb, marshalOAuthState lib ⟨r.UserID, r.ChannelID, Time.Add now (10 * Minute)⟩ = some sb ∧
      handleOAuthStart lib p f (.ok rnd) now w r
        = ({ w with
              kv := Function.update w.kv (oauthStateKeyPrefix ++ lib.base64URL rnd) (some sb) },
            httpRedirect lib r.Method (oauthURL lib p.getConfiguration (lib.base64URL rnd))
              307) := by
  unfold handleOAuthStart at h ⊢
  by_cases hu : r.UserID = ""
  · simp [hu, httpError] at h
  by_cases hc : r.ChannelID = ""
  · simp [hu, hc, httpError] at h
  cases hm : marshalOAuthState lib ⟨r.UserID, r.ChannelID, Time.Add now (10 * Minute)⟩ with
  | none => simp [hu, hc, hm, httpError] at h
  | some sb =>
    cases hs : f.kvSet (oauthStateKeyPrefix ++ lib.base64URL rnd) with
    | some e => simp [hu, hc, hm, KVSet, hs, httpError] at h
    | none => exact ⟨sb, rfl, by simp [hu, hc, hm, KVSet, hs]⟩

/-- C2. A state that was never issued: for every store without an entry under the state key,
every host failure and every access token, handleOAuthComplete answers 400 with one of its two
invalid-state messages and leaves the world as it was: no token is written, no post is created. -/
theorem complete_unknown_state (lib : GoLib) (f : Faults) (now1 now2 : Time) (w : World)
    (body : Bytes) (accessToken state : String)
    (hempty : lib.parse "" = none)
    (hbody : decodeOAuthCompleteRequest lib body = some ⟨accessToken, state⟩)
    (habsent : w.kv (oauthStateKeyPrefix ++ state) = none) :
    (handleOAuthComplete lib f now1 now2 w ⟨"POST", body⟩).1 = w ∧
      (handleOAuthComplete lib f now1 now2 w ⟨"POST", body⟩).2.status = 400 ∧
      ((handleOAuthComplete lib f now1 now2 w ⟨"POST", body⟩).2
          = httpError "Invalid OAuth state" 400 ∨
        (handleOAuthComplete lib f now1 now2 w ⟨"POST", body⟩).2
          = httpError "Invalid or expired OAuth state" 400) := by
  unfold handleOAuthComplete
  cases hg : f.kvGet (oauthStateKeyPrefix ++ state) with
  | some e => simp [hbody, KVGet, hg, httpError]
  | none => simp [hbody, KVGet, hg, habsent, bytesOf, unmarshalOAuthState, hempty, httpError]

/-- C2, on a concrete run: an empty store and the state `never-issued`. -/
theorem complete_unknown_state_witness :
    (handleOAuthComplete Example.lib Faults.none Example.t0 Example.t0 Example.emptyWorld
        ⟨"POST", "\x7b\"access_token\":\"tok\",\"state\":\"never-issued\"\x7d"⟩).1
        = Example.emptyWorld ∧
      (handleOAuthComplete Example.lib Faults.none Example.t0 Example.t0 Example.emptyWorld
        ⟨"POST", "\x7b\"access_token\":\"tok\",\"state\":\"never-issued\"\x7d"⟩).2.status = 400 :=
  have h := complete_unknown_state Example.lib Faults.none Example.t0 Example.t0 Example.emptyWorld
    "\x7b\"access_token\":\"tok\",\"state\":\"never-issued\"\x7d" "tok" "never-issued" rfl
    (by decide) rfl
  ⟨h.1, h.2.1⟩

/-- C3. A state issued by handleOAuthStart at time `t` (the start answered 307) is refused after
the window: a completion whose clock reads `t + 10 min + 1 s` or later answers 400 for any access
token and any host failure, with the message "OAuth state expired" when the store's Get succeeds,
and leaves the world as it was, so no token is written. -/
theorem complete_after_window (lib : GoLib) (p : Plugin) (f1 f2 : Faults) (rnd : List Nat)
    (t now1 now2 : Time) (w : World) (r : StartRequest) (body : Bytes) (accessToken : String)
    (hissued : (handleOAuthStart lib p f1 (.ok rnd) t w r).2.status = 307)
    (hback : ReadsBackState lib ⟨r.UserID, r.ChannelID, Time.Add t (10 * Minute)⟩)
    (hbody : decodeOAuthCompleteRequest lib body = some ⟨accessToken, lib.base64URL rnd⟩)
    (hlate : t + 10 * Minute + Second ≤ now1) :
    (handleOAuthComplete lib f2 now1 now2 (handleOAuthStart lib p f1 (.ok rnd) t w r).1
        ⟨"POST", body⟩).1 = (handleOAuthStart lib p f1 (.ok rnd) t w r).1 ∧
      (handleOAuthComplete lib f2 now1 now2 (handleOAuthStart lib p f1 (.ok rnd) t w r).1
        ⟨"POST", body⟩).2.status = 400 ∧
      (f2.kvGet (oauthStateKeyPrefix ++ lib.base64URL rnd) = none →
        (handleOAuthComplete lib f2 now1 now2 (handleOAuthStart lib p f1 (.ok rnd) t w r).1
          ⟨"POST", body⟩).2 = httpError "OAuth state expired" 400) := by
  obtain ⟨sb, hm, hstart⟩ := handleOAuthStart_of_redirect lib p f1 rnd t w r hissued
  have hu := hback sb hm
  have hexp : Time.After now1 (Time.Add t (10 * Minute)) = true := by
    simp only [Time.After, Time.Add, Second, Minute, decide_eq_true_eq] at hlate ⊢
    linarith
  rw [hstart]
  unfold handleOAuthComplete
  cases hg : f2.kvGet (oauthStateKeyPrefix ++ lib.base64URL rnd) with
  | some e => simp [hbody, KVGet, hg, httpError]
  | none => simp [hbody, KVGet, hg, bytesOf, hu, hexp, httpError]

/-- The example library reads back the state of the examples. -/
theorem Example.readsBackState :
    ReadsBackState Example.lib ⟨"u1", "c1", Time.Add Example.t0 (10 * Minute)⟩ := by
  intro b hb
  obtain rfl : Example.stateText = b := Option.some.inj hb
  decide

/-- The example library reads back the token of the examples. -/
theorem Example.readsBackToken :
    ReadsBackToken Example.lib ⟨"tok", Time.Add Example.t0 (24 * Hour), "u1"⟩ := by
  intro b hb
  obtain rfl :
      "\x7b\"access_token\":\"tok\",\"expires_at\":\"2023-11-15T22:13:20Z\",\"user_id\":\"u1\"\x7d"
        = b := Option.some.inj hb
  decide

/-- C3, on a concrete run: the state is issued at `t0` and completed one second after the
window. -/
theorem complete_after_window_witness :
    (handleOAuthComplete Example.lib Faults.none (Example.t0 + 10 * Minute + Second)
        (Example.t0 + 10 * Minute + Second)
        (handleOAuthStart Example.lib Example.plugin Faults.none (.ok (List.replicate 32 0))
          Example.t0 Example.emptyWorld ⟨"GET", "u1", "c1"⟩).1
        ⟨"POST", Example.completeBody⟩).2 = httpError "OAuth state expired" 400 :=
  (complete_after_window Example.lib Example.plugin Faults.none Faults.none (List.replicate 32 0)
    Example.t0 (Example.t0 + 10 * Minute + Second) (Example.t0 + 10 * Minute + Second)
    Example.emptyWorld ⟨"GET", "u1", "c1"⟩ Example.completeBody "tok" (by decide)
    Example.readsBackState
    (by decide) (by decide)).2.2 rfl

/-- Without an entry under the token key getUserToken returns an error and changes nothing. -/
theorem getUserToken_absent (lib : GoLib) (f : Faults) (now : Time) (w : World) (userID : String)
    (hempty : lib.parse "" = none) (habsent : w.kv (userTokenKeyPrefix ++ userID) = none) :
    ∃ e, getUserToken lib f now w userID = (w, .error e) := by
  unfold getUserToken
  cases hg : f.kvGet (userTokenKeyPrefix ++ userID) with
  | some e => exact ⟨e, by simp [KVGet, hg]⟩
  | none =>
    exact ⟨lib.jsonError "", by simp [KVGet, hg, habsent, bytesOf, unmarshalUserToken, hempty]⟩

/-- C4. Lazy expiry: when the stored token of a user has its ExpiresAt strictly before the clock
reading and the store's Get succeeds, getUserToken returns the error "token expired"; when the
Delete succeeds the token key is absent from the resulting store; and whatever the Delete did, a
second getUserToken at the same or a later reading returns an error, never a token. -/
theorem lazy_expiry (lib : GoLib) (f : Faults) (now : Time) (w : World) (userID : String)
    (b : Bytes) (tok : UserToken)
    (hempty : lib.parse "" = none)
    (hget : f.kvGet (userTokenKeyPrefix ++ userID) = none)
    (hstored : w.kv (userTokenKeyPrefix ++ userID) = some b)
    (htoken : unmarshalUserToken lib b = some tok)
    (hpast : tok.ExpiresAt < now) :
    (getUserToken lib f now w userID).2 = .error "token expired" ∧
      (f.kvDelete (userTokenKeyPrefix ++ userID) = none →
        (getUserToken lib f now w userID).1.kv (userTokenKeyPrefix ++ userID) = none) ∧
      ∀ (f2 : Faults) (now2 : Time), now ≤ now2 →
        ∃ e, (getUserToken lib f2 now2 (getUserToken lib f now w userID).1 userID).2
          = .error e := by
  have hexp : Time.After now tok.ExpiresAt = true := by simp [Time.After, hpast]
  rw [getUserToken_expired lib f now w userID tok hget (by simpa [hstored, bytesOf] using htoken)
    hexp]
  refine ⟨rfl, ?_, ?_⟩
  · intro hdel
    simp [KVDelete, hdel]
  · intro f2 now2 hle
    cases hdel : f.kvDelete (userTokenKeyPrefix ++ userID) with
    | none =>
      obtain ⟨e, he⟩ := getUserToken_absent lib f2 now2
        (KVDelete f w (userTokenKeyPrefix ++ userID)).1 userID hempty (by simp [KVDelete, hdel])
      exact ⟨e, by rw [he]⟩
    | some err =>
      have hw : (KVDelete f w (userTokenKeyPrefix ++ userID)).1 = w := by simp [KVDelete, hdel]
      rw [hw]
      cases hg : f2.kvGet (userTokenKeyPrefix ++ userID) with
      | some e => exact ⟨e, by simp [getUserToken, KVGet, hg]⟩
      | none =>
        have hexp2 : Time.After now2 tok.ExpiresAt = true := by
          simp only [Time.After, decide_eq_true_eq]
          exact lt_of_lt_of_le hpast hle
        exact ⟨"token expired", by
          rw [getUserToken_expired lib f2 now2 w userID tok hg
            (by simpa [hstored, bytesOf] using htoken) hexp2]⟩

/-- C4, on a concrete run: at `t0` the store holds a token of `u1` that expired a day
earlier. -/
theorem lazy_expiry_witness :
    (getUserToken Example.lib Faults.none Example.t0
        (Example.worldWith "telemost_user_token_u1" Example.expiredTokenText) "u1").2
        = .error "token expired" ∧
      (getUserToken Example.lib Faults.none Example.t0
        (Example.worldWith "telemost_user_token_u1" Example.expiredTokenText) "u1").1.kv
          (userTokenKeyPrefix ++ "u1") = none :=
  have h := lazy_expiry Example.lib Faults.none Example.t0
    (Example.worldWith "telemost_user_token_u1" Example.expiredTokenText) "u1"
    Example.expiredTokenText ⟨"old", Example.t0 - 24 * Hour, "u1"⟩ rfl rfl (by decide) (by decide)
    (by decide)
  ⟨h.1, h.2.1 rfl⟩

/-- A completion that answers 200 has taken its main path. -/
theorem handleOAuthComplete_of_success (lib : GoLib) (f : Faults) (now1 now2 : Time) (w : World)
    (body : Bytes) (req : OAuthCompleteRequest) (st : OAuthState)
    (hbody : decodeOAuthCompleteRequest lib body = some req)
    (hst : unmarshalOAuthState lib (bytesOf (w.kv (oauthStateKeyPrefix ++ req.State))) = some st)
    (h : (handleOAuthComplete lib f now1 now2 w ⟨"POST", body⟩).2.status = 200) :
    ∃ tb, marshalUserToken lib ⟨req.AccessToken, Time.Add now2 (24 * Hour), st.UserID⟩ = some tb ∧
      Time.After now1 st.ExpiresAt = false ∧
      handleOAuthComplete lib f now1 now2 w ⟨"POST", body⟩
        = ((CreatePost f
              (KVDelete f
                { w with kv := Function.update w.kv (userTokenKeyPrefix ++ st.UserID) (some tb) }
                (oauthStateKeyPrefix ++ req.State)).1
              (successPost st)).1,
            successResponse lib) := by
  cases hg : f.kvGet (oauthStateKeyPrefix ++ req.State) with
  | some e => simp [handleOAuthComplete, hbody, KVGet, hg, httpError] at h
  | none =>
    cases hnow : Time.After now1 st.ExpiresAt with
    | true => simp [handleOAuthComplete, hbody, KVGet, hg, hst, hnow, httpError] at h
    | false =>
      cases hm : marshalUserToken lib ⟨req.AccessToken, Time.Add now2 (24 * Hour), st.UserID⟩ with
      | none => simp [handleOAuthComplete, hbody, KVGet, hg, hst, hnow, hm, httpError] at h
      | some tb =>
        cases hs : f.kvSet (userTokenKeyPrefix ++ st.UserID) with
        | some e =>
          simp [handleOAuthComplete, hbody, KVGet, hg, hst, hnow, hm, KVSet, hs, httpError] at h
        | none =>
          exact ⟨tb, rfl, rfl,
            handleOAuthComplete_stored lib f now1 now2 w body req st tb hbody hg hst hnow hm hs⟩

/-- C5. Token lifetime is exactly 24 hours: if handleOAuthComplete succeeds (answers 200) for a
state of user `u` with access token `a`, its token being stamped at clock reading `now2`, then on
the resulting store getUserToken for `u` at reading `t` returns the token with access token `a`
whenever `t` is at most `now2 + 24 h` (and the store's Get succeeds), and returns an error
whenever `t` is later than `now2 + 24 h`. -/
theorem token_lifetime (lib : GoLib) (f2 f3 : Faults) (now1 now2 t : Time) (w : World)
    (body : Bytes) (accessToken state : String) (st : OAuthState)
    (hbody : decodeOAuthCompleteRequest lib body = some ⟨accessToken, state⟩)
    (hst : unmarshalOAuthState lib (bytesOf (w.kv (oauthStateKeyPrefix ++ state))) = some st)
    (hok : (handleOAuthComplete lib f2 now1 now2 w ⟨"POST", body⟩).2.status = 200)
    (hback : ReadsBackToken lib ⟨accessToken, Time.Add now2 (24 * Hour), st.UserID⟩) :
    (t ≤ now2 + 24 * Hour → f3.kvGet (userTokenKeyPrefix ++ st.UserID) = none →
        (getUserToken lib f3 t (handleOAuthComplete lib f2 now1 now2 w ⟨"POST", body⟩).1
          st.UserID).2 = .ok ⟨accessToken, Time.Add now2 (24 * Hour), st.UserID⟩) ∧
      (now2 + 24 * Hour < t →
        ∃ e, (getUserToken lib f3 t (handleOAuthComplete lib f2 now1 now2 w ⟨"POST", body⟩).1
          st.UserID).2 = .error e) := by
  obtain ⟨tb, hm, -, hrun⟩ :=
    handleOAuthComplete_of_success lib f2 now1 now2 w body ⟨accessToken, state⟩ st hbody hst hok
  have hu := hback tb hm
  rw [hrun]
  have hread : unmarshalUserToken lib (bytesOf
      ((CreatePost f2
        (KVDelete f2
          { w with kv := Function.update w.kv (userTokenKeyPrefix ++ st.UserID) (some tb) }
          (oauthStateKeyPrefix ++ state)).1
        (successPost st)).1.kv (userTokenKeyPrefix ++ st.UserID)))
      = some ⟨accessToken, Time.Add now2 (24 * Hour), st.UserID⟩ := by
    rw [handleOAuthComplete_kv_token]
    simpa [bytesOf] using hu
  constructor
  · intro hle hget
    have hnow : Time.After t (Time.Add now2 (24 * Hour)) = false := by
      simp only [Time.After, Time.Add, decide_eq_false_iff_not, not_lt]
      exact hle
    rw [getUserToken_valid lib f3 t _ st.UserID _ hget hread hnow]
  · intro hlt
    cases hg : f3.kvGet (userTokenKeyPrefix ++ st.UserID) with
    | some e => exact ⟨e, by simp [getUserToken, KVGet, hg]⟩
    | none =>
      have hnow : Time.After t (Time.Add now2 (24 * Hour)) = true := by
        simp only [Time.After, Time.Add, decide_eq_true_eq]
        exact hlt
      exact ⟨"token expired", by rw [getUserToken_expired lib f3 t _ st.UserID _ hg hread hnow]⟩

/-- C5, on a concrete run: the token stamped at `t0` is returned at `t0 + 24 h` to the
nanosecond and refused one nanosecond later. -/
theorem token_lifetime_witness :
    (getUserToken Example.lib Faults.none (Example.t0 + 24 * Hour)
        (handleOAuthComplete Example.lib Faults.none Example.t0 Example.t0
          (Example.worldWith (oauthStateKeyPrefix ++ "AAAAAAAAAAAAAAAAAAAAAAAAAAAAAAAAAAAAAAAAAAA=")
            Example.stateText)
          ⟨"POST", Example.completeBody⟩).1
        "u1").2 = .ok ⟨"tok", Time.Add Example.t0 (24 * Hour), "u1"⟩ ∧
      ∃ e, (getUserToken Example.lib Faults.none (Example.t0 + 24 * Hour + 1)
        (handleOAuthComplete Example.lib Faults.none Example.t0 Example.t0
          (Example.worldWith (oauthStateKeyPrefix ++ "AAAAAAAAAAAAAAAAAAAAAAAAAAAAAAAAAAAAAAAAAAA=")
            Example.stateText)
          ⟨"POST", Example.completeBody⟩).1
        "u1").2 = .error e :=
  ⟨(token_lifetime Example.lib Faults.none Faults.none Example.t0 Example.t0
      (Example.t0 + 24 * Hour)
      (Example.worldWith (oauthStateKeyPrefix ++ "AAAAAAAAAAAAAAAAAAAAAAAAAAAAAAAAAAAAAAAAAAA=")
        Example.stateText)
      Example.completeBody "tok" "AAAAAAAAAAAAAAAAAAAAAAAAAAAAAAAAAAAAAAAAAAA="
      ⟨"u1", "c1", Time.Add Example.t0 (10 * Minute)⟩ (by decide) (by decide) (by decide)
      Example.readsBackToken).1 (by decide) rfl,
    (token_lifetime Example.lib Faults.none Faults.none Example.t0 Example.t0
      (Example.t0 + 24 * Hour + 1)
      (Example.worldWith (oauthStateKeyPrefix ++ "AAAAAAAAAAAAAAAAAAAAAAAAAAAAAAAAAAAAAAAAAAA=")
        Example.stateText)
      Example.completeBody "tok" "AAAAAAAAAAAAAAAAAAAAAAAAAAAAAAAAAAAAAAAAAAA="
      ⟨"u1", "c1", Time.Add Example.t0 (10 * Minute)⟩ (by decide) (by decide) (by decide)
      Example.readsBackToken).2 (by decide)⟩

/-! ## Disconnect: claim -/

/-- C6. Disconnect, for every command text whose second field lowers to `disconnect`: for a user
with no stored token the command answers "Not authenticated" and leaves the world as it was,
whatever the host does; for a user with a stored token, when the store's Get and Delete succeed,
it answers "Disconnected", the token key is absent afterwards, every other key (so every other
user's token) is as it was, and a following getUserToken for the user returns an error. -/
theorem disconnect_command (lib : GoLib) (f : Faults) (plugin : Command.MeetingCreator)
    (w : World) (args : Command.CommandArgs)
    (hfields : 2 ≤ (Command.Fields args.Command).length)
    (hsub : lib.toLower ((Command.Fields args.Command).getD 1 "") = "disconnect")
    (hempty : lib.parse "" = none) :
    (w.kv (userTokenKeyPrefix ++ args.UserId) = none →
        Command.Handle lib f plugin w args
          = (w, .ok (Command.ephemeral Command.notAuthenticatedText))) ∧
      (∀ b : Bytes, w.kv (userTokenKeyPrefix ++ args.UserId) = some b → b ≠ "" →
        f.kvGet (userTokenKeyPrefix ++ args.UserId) = none →
        f.kvDelete (userTokenKeyPrefix ++ args.UserId) = none →
        (Command.Handle lib f plugin w args).2
            = .ok (Command.ephemeral Command.disconnectedText) ∧
          (Command.Handle lib f plugin w args).1.kv (userTokenKeyPrefix ++ args.UserId) = none ∧
          (∀ k, k ≠ userTokenKeyPrefix ++ args.UserId →
            (Command.Handle lib f plugin w args).1.kv k = w.kv k) ∧
          (∀ other, other ≠ args.UserId →
            (Command.Handle lib f plugin w args).1.kv (userTokenKeyPrefix ++ other)
              = w.kv (userTokenKeyPrefix ++ other)) ∧
          ∀ (f2 : Faults) (now : Time),
            ∃ e, (getUserToken lib f2 now (Command.Handle lib f plugin w args).1 args.UserId).2
              = .error e) := by
  have hlen : ¬ (Command.Fields args.Command).length < 2 := by omega
  rw [List.getD_eq_getElem?_getD] at hsub
  constructor
  · intro habsent
    have habsent2 : w.kv ("telemost_user_token_" ++ args.UserId) = none := habsent
    cases hg : f.kvGet ("telemost_user_token_" ++ args.UserId) <;>
      simp [Command.Handle, hlen, hsub, Command.clientKVGet, KVGet, hg, habsent2]
  · intro b hstored hne hget hdel
    have hstored2 : w.kv ("telemost_user_token_" ++ args.UserId) = some b := hstored
    have hget2 : f.kvGet ("telemost_user_token_" ++ args.UserId) = none := hget
    have hdel2 : f.kvDelete ("telemost_user_token_" ++ args.UserId) = none := hdel
    have hrun : Command.Handle lib f plugin w args
        = ({ w with kv := Function.update w.kv (userTokenKeyPrefix ++ args.UserId) none },
            .ok (Command.ephemeral Command.disconnectedText)) := by
      simp [Command.Handle, hlen, hsub, Command.clientKVGet, KVGet, hget2, hstored2, hne,
        Command.clientKVDelete, KVDelete, hdel2, userTokenKeyPrefix]
    rw [hrun]
    refine ⟨rfl, by simp, ?_, ?_, ?_⟩
    · intro k hk
      simp [Function.update, hk]
    · intro other hother
      have hk : userTokenKeyPrefix ++ other ≠ userTokenKeyPrefix ++ args.UserId :=
        fun h => hother (tokenKey_injective other args.UserId h)
      simp [Function.update, hk]
    · intro f2 now
      obtain ⟨e, he⟩ := getUserToken_absent lib f2 now
        { w with kv := Function.update w.kv (userTokenKeyPrefix ++ args.UserId) none }
        args.UserId hempty (by simp)
      exact ⟨e, by rw [he]⟩

/-- C6, on concrete runs: `/telemost disconnect` by `u1` on an empty store, and on a store that
holds a token of `u1`. -/
theorem disconnect_command_witness :
    Command.Handle Example.lib Faults.none (fun _ _ _ w => (w, .panic)) Example.emptyWorld
        ⟨"/telemost disconnect", "u1", "c1"⟩
        = (Example.emptyWorld, .ok (Command.ephemeral Command.notAuthenticatedText)) ∧
      (Command.Handle Example.lib Faults.none (fun _ _ _ w => (w, .panic))
        (Example.worldWith "telemost_user_token_u1" Example.expiredTokenText)
        ⟨"/telemost disconnect", "u1", "c1"⟩).1.kv (userTokenKeyPrefix ++ "u1") = none :=
  ⟨(disconnect_command Example.lib Faults.none (fun _ _ _ w => (w, .panic)) Example.emptyWorld
      ⟨"/telemost disconnect", "u1", "c1"⟩ (by decide) (by decide) rfl).1 rfl,
    ((disconnect_command Example.lib Faults.none (fun _ _ _ w => (w, .panic))
      (Example.worldWith "telemost_user_token_u1" Example.expiredTokenText)
      ⟨"/telemost disconnect", "u1", "c1"⟩ (by decide) (by decide) rfl).2
        Example.expiredTokenText (by decide) (by decide) rfl rfl).2.1⟩

/-! ## Meeting client: claims -/

/-- The assignment loop, started behind the entries already assigned, fills the remaining zero entries with the remaining emails in order. -/
theorem assignEmails_append (done : List Cohost) (emails : List String) :
    assignEmails (done ++ List.replicate emails.length ⟨""⟩) done.length emails
      = done ++ emails.map Cohost.mk := by
  induction emails generalizing done with
  | nil => simp [assignEmails]
  | cons email rest ih =>
    have hstep : (done ++ List.replicate (email :: rest).length (⟨""⟩ : Cohost)).set done.length
        { (done ++ List.replicate (email :: rest).length (⟨""⟩ : Cohost)).getD done.length ⟨""⟩
          with Email := email }
        = (done ++ [⟨email⟩]) ++ List.replicate rest.length ⟨""⟩ := by
      simp [List.replicate_succ]
    rw [assignEmails, hstep]
    have hlen : done.length + 1 = (done ++ [(⟨email⟩ : Cohost)]).length := by simp
    rw [hlen, ih]
    simp

/-- On a receiver that is not nil CreateMeeting sends exactly one request, with the OAuth token of the receiver and the rendered request as body. -/
theorem CreateMeeting_calls (lib : GoLib) (net : Net) (tc : TelemostClient)
    (req : TelemostCreateRequest) (w : World) :
    (CreateMeeting lib net (some tc) req w).1.calls
      = w.calls ++ [⟨"POST", telemostAPIBaseURL ++ "/conferences", "OAuth " ++ tc.oauthToken,
          "application/json", lib.render req.toJson⟩] := by
  unfold CreateMeeting
  dsimp only
  split
  · rfl
  · rfl
  · split <;> split <;> rfl

/-- The cohosts of the request built from the defaults are the emails in order. -/
theorem defaultsRequest_cohosts (config : configuration) (title description : String)
    (cohosts : List String) :
    (defaultsRequest config title description cohosts).Cohosts = cohosts.map Cohost.mk := by
  have h := assignEmails_append [] cohosts
  simp only [List.nil_append, List.length_nil] at h
  unfold defaultsRequest
  dsimp only
  by_cases hl : cohosts.length > 0
  · rw [if_pos hl]
    exact h
  · rw [if_neg hl]
    have hnil : cohosts = [] := List.length_eq_zero.mp (by omega)
    subst hnil
    split <;> rfl

/-- C7. For every configuration, title, description and cohost list, CreateMeetingWithDefaults
is CreateMeeting on a request that has a live-stream block exactly when EnableLiveStream is set;
the block carries the configured access level and the title and description of the call as they
are; the waiting-room level is always the configured one; that request is the body of the
request sent to the provider, and its JSON object has a `live_stream` member exactly when
EnableLiveStream is set. -/
theorem defaults_request_live_stream (lib : GoLib) (net : Net) (tc : TelemostClient)
    (config : configuration) (title description : String) (cohosts : List String) (w : World) :
    CreateMeetingWithDefaults lib net (some tc) config title description cohosts w
        = CreateMeeting lib net (some tc) (defaultsRequest config title description cohosts) w ∧
      (CreateMeetingWithDefaults lib net (some tc) config title description cohosts w).1.calls
        = w.calls ++ [⟨"POST", telemostAPIBaseURL ++ "/conferences", "OAuth " ++ tc.oauthToken,
            "application/json",
            lib.render (defaultsRequest config title description cohosts).toJson⟩] ∧
      ((defaultsRequest config title description cohosts).LiveStream.isSome = true
        ↔ config.EnableLiveStream = true) ∧
      (defaultsRequest config title description cohosts).LiveStream
        = (if config.EnableLiveStream = true then
            some ⟨config.DefaultLiveStreamAccessLevel, title, description⟩
          else none) ∧
      (defaultsRequest config title description cohosts).WaitingRoomLevel
        = config.DefaultWaitingRoomLevel ∧
      (defaultsRequest config title description cohosts).toJson.hasMember "live_stream"
        = config.EnableLiveStream := by
  have hls : (defaultsRequest config title description cohosts).LiveStream
      = (if config.EnableLiveStream = true then
          some ⟨config.DefaultLiveStreamAccessLevel, title, description⟩
        else none) := by
    unfold defaultsRequest
    dsimp only [configuration.IsLiveStreamEnabled, configuration.GetDefaultLiveStreamAccessLevel]
    split <;> split <;> rfl
  refine ⟨rfl, CreateMeeting_calls lib net tc _ w, ?_, hls, ?_, ?_⟩
  · rw [hls]
    cases config.EnableLiveStream <;> simp
  · unfold defaultsRequest
    dsimp only [configuration.GetDefaultWaitingRoomLevel]
    split <;> split <;> rfl
  · unfold TelemostCreateRequest.toJson
    rw [hls]
    cases config.EnableLiveStream <;>
      by_cases hw : (defaultsRequest config title description cohosts).WaitingRoomLevel = "" <;>
      by_cases hc : (defaultsRequest config title description cohosts).Cohosts.isEmpty = true <;>
      simp [Json.hasMember, omitEmpty, hw, hc]

/-- C8. For every cohost email list, the request built by CreateMeetingWithDefaults has one
cohost entry per email, in the same order and with duplicates kept: the emails of the entries
are the list itself, so the lengths agree and entry `i` carries email `i`; for the empty list
the request has no cohosts and its JSON object has no `cohosts` member. -/
theorem defaults_request_cohosts (config : configuration) (title description : String)
    (cohosts : List String) :
    (defaultsRequest config title description cohosts).Cohosts.map Cohost.Email = cohosts ∧
      (defaultsRequest config title description cohosts).Cohosts.length = cohosts.length ∧
      (∀ i : Nat, ((defaultsRequest config title description cohosts).Cohosts[i]?).map
        Cohost.Email = cohosts[i]?) ∧
      (defaultsRequest config title description []).Cohosts = [] ∧
      (defaultsRequest config title description []).toJson
        = Json.obj (omitEmpty "waiting_room_level" config.DefaultWaitingRoomLevel
            ++ (if config.EnableLiveStream = true then
                  [("live_stream",
                    (⟨config.DefaultLiveStreamAccessLevel, title, description⟩ :
                      RequestLiveStream).toJson)]
                else [])) := by
  have h := defaultsRequest_cohosts config title description cohosts
  have hmap : (defaultsRequest config title description cohosts).Cohosts.map Cohost.Email
      = cohosts := by
    rw [h, List.map_map]
    exact List.map_id _
  refine ⟨hmap, ?_, ?_, ?_, ?_⟩
  · rw [h, List.length_map]
  · intro i
    rw [← List.getElem?_map, hmap]
  · rw [defaultsRequest_cohosts]
    rfl
  · unfold defaultsRequest TelemostCreateRequest.toJson
    cases hl : config.EnableLiveStream <;>
      simp [configuration.IsLiveStreamEnabled, configuration.GetDefaultWaitingRoomLevel,
        configuration.GetDefaultLiveStreamAccessLevel, hl]


/-- The result of CreateMeeting when the provider answers with a status and a body. -/
theorem CreateMeeting_response (lib : GoLib) (net : Net) (tc : TelemostClient)
    (req : TelemostCreateRequest) (w : World) (status : Nat) (body : Bytes)
    (hnet : net ⟨"POST", telemostAPIBaseURL ++ "/conferences", "OAuth " ++ tc.oauthToken,
      "application/json", lib.render req.toJson⟩ = .response status body) :
    (CreateMeeting lib net (some tc) req w).2
      = (if status ≠ 201 then
          match unmarshalTelemostError lib body with
          | none =>
            .error ("failed to create meeting, status: " ++ formatInt status ++ ", body: " ++ body)
          | some telemostErr =>
            .error ("telemost API error: " ++ telemostErr.Error ++ " - " ++ telemostErr.Message)
        else
          match unmarshalTelemostMeeting lib body with
          | none => .error ("failed to unmarshal response: " ++ lib.jsonError body)
          | some meeting => .ok meeting) := by
  unfold CreateMeeting
  simp only [hnet]
  split <;> split <;> rfl

/-- C9. Response classification of CreateMeeting, for every request and every response of the
provider with a status and a body: with status 201 and a body that reads as a Meeting the result
is that Meeting and no error (a body that is the object with `id` "abc" and `join_url`
"https://x/y" gives the Meeting with that ID and JoinURL); with status 201 and a body that does
not read as a Meeting the result is an error; with any other status the result is an error,
whatever the body. -/
theorem create_meeting_classification (lib : GoLib) (net : Net) (tc : TelemostClient)
    (req : TelemostCreateRequest) (w : World) (status : Nat) (body : Bytes)
    (hnet : net ⟨"POST", telemostAPIBaseURL ++ "/conferences", "OAuth " ++ tc.oauthToken,
      "application/json", lib.render req.toJson⟩ = .response status body) :
    (∀ m, status = 201 → unmarshalTelemostMeeting lib body = some m →
        (CreateMeeting lib net (some tc) req w).2 = .ok m) ∧
      (status = 201 →
        lib.parse body
          = some (Json.obj [("id", Json.str "abc"), ("join_url", Json.str "https://x/y")]) →
        (CreateMeeting lib net (some tc) req w).2 = .ok ⟨"abc", "https://x/y", none⟩) ∧
      (status = 201 → unmarshalTelemostMeeting lib body = none →
        ∃ e, (CreateMeeting lib net (some tc) req w).2 = .error e) ∧
      (status ≠ 201 → ∃ e, (CreateMeeting lib net (some tc) req w).2 = .error e) := by
  rw [CreateMeeting_response lib net tc req w status body hnet]
  refine ⟨?_, ?_, ?_, ?_⟩
  · intro m hs hm
    simp [hs, hm]
  · intro hs hp
    have hm : unmarshalTelemostMeeting lib body = some ⟨"abc", "https://x/y", none⟩ := by
      unfold unmarshalTelemostMeeting
      rw [hp]
      decide
    simp [hs, hm]
  · intro hs hm
    simp [hs, hm]
  · intro hs
    cases he : unmarshalTelemostError lib body with
    | none => simp [hs]
    | some te => simp [hs]

/-- C9, on the scenario of the created meeting: the provider answers 201 with the body
`meetingBody`. -/
theorem create_meeting_classification_witness :
    (CreateMeeting Example.lib (fun _ => .response 201 Example.meetingBody) (some ⟨"tok"⟩)
      ⟨"PUBLIC", none, []⟩ Example.emptyWorld).2 = .ok ⟨"abc", "https://x/y", none⟩ :=
  (create_meeting_classification Example.lib (fun _ => .response 201 Example.meetingBody) ⟨"tok"⟩
    ⟨"PUBLIC", none, []⟩ Example.emptyWorld 201 Example.meetingBody rfl).2.1 rfl rfl

/-- C10. For every response of the provider whose status is not 201: if the body reads as a
structured provider error, CreateMeeting fails with the message "telemost API error: e - m" for
its `error` e and its `message` m (so for the object with `error` "forbidden" and `message`
"no quota" the message ends in "no quota"); if the body does not read as one, it fails with the
message that carries the status in decimal (`Nat.repr`, so 503 is written "503") and the raw
body. -/
theorem create_meeting_provider_error (lib : GoLib) (net : Net) (tc : TelemostClient)
    (req : TelemostCreateRequest) (w : World) (status : Nat) (body : Bytes)
    (hnet : net ⟨"POST", telemostAPIBaseURL ++ "/conferences", "OAuth " ++ tc.oauthToken,
      "application/json", lib.render req.toJson⟩ = .response status body)
    (hstatus : status ≠ 201) :
    (∀ te, unmarshalTelemostError lib body = some te →
        (CreateMeeting lib net (some tc) req w).2
          = .error ("telemost API error: " ++ te.Error ++ " - " ++ te.Message)) ∧
      (∀ e m : String,
        lib.parse body = some (Json.obj [("error", Json.str e), ("message", Json.str m)]) →
        (CreateMeeting lib net (some tc) req w).2
          = .error ("telemost API error: " ++ e ++ " - " ++ m)) ∧
      (unmarshalTelemostError lib body = none →
        (CreateMeeting lib net (some tc) req w).2
          = .error ("failed to create meeting, status: " ++ Nat.repr status ++ ", body: "
              ++ body)) := by
  rw [CreateMeeting_response lib net tc req w status body hnet]
  refine ⟨?_, ?_, ?_⟩
  · intro te hte
    simp [hstatus, hte]
  · intro e m hp
    have hte : unmarshalTelemostError lib body = some ⟨e, m, "", ⟨""⟩⟩ := by
      unfold unmarshalTelemostError
      rw [hp]
      rfl
    simp [hstatus, hte]
  · intro hte
    simp only [hstatus, hte, ne_eq, not_false_eq_true, if_true]
    rfl

/-- C10, on the scenario of the refused request (403 with the body `quotaBody`) and on a 503
whose body is not JSON. -/
theorem create_meeting_provider_error_witness :
    (CreateMeeting Example.lib (fun _ => .response 403 Example.quotaBody) (some ⟨"tok"⟩)
        ⟨"PUBLIC", none, []⟩ Example.emptyWorld).2
        = .error "telemost API error: forbidden - no quota" ∧
      (CreateMeeting Example.lib (fun _ => .response 503 "Service Unavailable") (some ⟨"tok"⟩)
        ⟨"PUBLIC", none, []⟩ Example.emptyWorld).2
        = .error "failed to create meeting, status: 503, body: Service Unavailable" :=
  ⟨(create_meeting_provider_error Example.lib (fun _ => .response 403 Example.quotaBody) ⟨"tok"⟩
      ⟨"PUBLIC", none, []⟩ Example.emptyWorld 403 Example.quotaBody rfl (by decide)).2.1
      "forbidden" "no quota" rfl,
    (create_meeting_provider_error Example.lib (fun _ => .response 503 "Service Unavailable")
      ⟨"tok"⟩ ⟨"PUBLIC", none, []⟩ Example.emptyWorld 503 "Service Unavailable" rfl
      (by decide)).2.2 (by decide)⟩

/-! ## Static assets: claim -/

/-- A text that starts with a prefix has it. -/
theorem HasPrefix_append (pre s : String) : HasPrefix (pre ++ s) pre = true := by
  simp [HasPrefix, String.data_append, List.isPrefixOf_iff_prefix]

/-- Trimming a prefix from a text that starts with it leaves the rest. -/
theorem TrimPrefix_append (pre s : String) : TrimPrefix (pre ++ s) pre = s := by
  simp [TrimPrefix, HasPrefix_append, String.data_append]

/-- C11. For every request path `/assets/<name>` whose name contains ".." or "/", handleAssets
answers 403 Forbidden and calls ReadFile not once; and on every request path whatever, each
path handleAssets hands to ReadFile is filepath.Join of "assets" and a name that contains
neither ".." nor "/". -/
theorem assets_traversal_rejected (lib : GoLib) (files : Files) :
    (∀ name : String, Contains name ".." = true ∨ Contains name "/" = true →
        handleAssets lib files ("/assets/" ++ name) = ([], httpError "Forbidden" 403)) ∧
      (∀ path fullPath : String, fullPath ∈ (handleAssets lib files path).1 →
        ∃ name, fullPath = lib.filepathJoin "assets" name ∧ Contains name ".." = false ∧
          Contains name "/" = false) := by
  constructor
  · intro name hname
    have hbad : (Contains name ".." || Contains name "/") = true := by
      rcases hname with h | h <;> simp [h]
    simp [handleAssets, HasPrefix_append, TrimPrefix_append, hbad]
  · intro path fullPath hmem
    unfold handleAssets at hmem
    dsimp only at hmem
    split at hmem
    · simp at hmem
    · rename_i assetPath _
      split at hmem
      · simp at hmem
      · rename_i hgood
        have hfull : fullPath = lib.filepathJoin "assets" assetPath := by
          split at hmem <;> simpa using hmem
        simp only [Bool.or_eq_true, not_or, Bool.not_eq_true] at hgood
        exact ⟨assetPath, hfull, hgood.1, hgood.2⟩

/-- C11, on the scenario of the traversal: the request for `/assets/../../etc/passwd`. -/
theorem assets_traversal_rejected_witness :
    handleAssets Example.lib Example.iconFiles "/assets/../../etc/passwd"
      = ([], httpError "Forbidden" 403) :=
  (assets_traversal_rejected Example.lib Example.iconFiles).1 "../../etc/passwd"
    (Or.inl (by decide))

/-! ## Slash commands: claims -/

/-- C12. For every user with no stored token and every command text whose second field lowers
to `start`, whatever the host does and whatever the plugin behind the handler is, Handle returns
the ephemeral response whose text begins "**Telemost not authenticated!**" and the world is as
it was: the store is not modified, the plugin is not asked for a meeting, and no request goes to
the provider. -/
theorem start_without_token (lib : GoLib) (f : Faults) (w : World) (args : Command.CommandArgs)
    (hfields : 2 ≤ (Command.Fields args.Command).length)
    (hsub : lib.toLower ((Command.Fields args.Command).getD 1 "") = "start")
    (habsent : w.kv (userTokenKeyPrefix ++ args.UserId) = none) :
    (∀ plugin : Command.MeetingCreator,
        Command.Handle lib f plugin w args
          = (w, .ok (Command.ephemeral Command.startNotAuthenticatedText))) ∧
      (∀ (net : Net) (p : Plugin),
        ExecuteCommand lib net f p w args
          = (w, .ok (Command.ephemeral Command.startNotAuthenticatedText))) ∧
      HasPrefix Command.startNotAuthenticatedText "**Telemost not authenticated!**" = true := by
  have hlen : ¬ (Command.Fields args.Command).length < 2 := by omega
  rw [List.getD_eq_getElem?_getD] at hsub
  have habsent2 : w.kv ("telemost_user_token_" ++ args.UserId) = none := habsent
  have hrun : ∀ plugin : Command.MeetingCreator,
      Command.Handle lib f plugin w args
        = (w, .ok (Command.ephemeral Command.startNotAuthenticatedText)) := by
    intro plugin
    cases hg : f.kvGet ("telemost_user_token_" ++ args.UserId) <;>
      simp [Command.Handle, hlen, hsub, Command.clientKVGet, KVGet, hg, habsent2]
  refine ⟨hrun, ?_, by decide⟩
  intro net p
  simp [ExecuteCommand, hrun, Command.ephemeral]

/-- C12, on the scenario: the command text `telemost start` on an empty store. -/
theorem start_without_token_witness :
    ExecuteCommand Example.lib Example.createdNet Faults.none Example.plugin Example.emptyWorld
        ⟨"telemost start", "u1", "c1"⟩
      = (Example.emptyWorld, .ok (Command.ephemeral Command.startNotAuthenticatedText)) :=
  (start_without_token Example.lib Faults.none Example.emptyWorld ⟨"telemost start", "u1", "c1"⟩
    (by decide) (by decide) rfl).2.1 Example.createdNet Example.plugin

/-- C13, the code at a failing input. At `t0` the store holds a token of `u1` that expired a day
earlier: getUserToken refuses it as expired, yet `/telemost start` by `u1` hands its access
token `old` to meeting creation, a request with that bearer token goes to the provider, and the
answer is the in-channel meeting response. -/
theorem start_with_expired_token :
    (getUserToken Example.lib Faults.none Example.t0
        (Example.worldWith "telemost_user_token_u1" Example.expiredTokenText) "u1").2
        = .error "token expired" ∧
      (ExecuteCommand Example.lib Example.createdNet Faults.none Example.pluginWithToken
        (Example.worldWith "telemost_user_token_u1" Example.expiredTokenText)
        ⟨"/telemost start", "u1", "c1"⟩).2
        = .ok (some ⟨Command.CommandResponseTypeInChannel, "",
            [("type", "custom_telemost_meeting"), ("joinURL", "https://x/y"),
              ("meetingID", "abc"), ("title", "Telemost Meeting")]⟩, none) ∧
      (ExecuteCommand Example.lib Example.createdNet Faults.none Example.pluginWithToken
        (Example.worldWith "telemost_user_token_u1" Example.expiredTokenText)
        ⟨"/telemost start", "u1", "c1"⟩).1.calls
        = [⟨"POST", "https://cloud-api.yandex.net/v1/telemost-api/conferences", "OAuth old",
            "application/json", "\x7b\"waiting_room_level\":\"PUBLIC\"\x7d"⟩] := by
  refine ⟨by rfl, by rfl, by decide⟩

/-- A text contains every part of it. -/
theorem containsChars_append (sub pre post : List Char) :
    containsChars sub (pre ++ (sub ++ post)) = true := by
  induction pre with
  | nil =>
    cases h : sub ++ post with
    | nil =>
      have hs : sub = [] := (List.append_eq_nil.mp h).1
      simp [containsChars, hs]
    | cons c cs =>
      have hp : sub.isPrefixOf (c :: cs) = true := by
        rw [← h, List.isPrefixOf_iff_prefix]
        exact List.prefix_append sub post
      simp [containsChars, hp]
  | cons c cs ih =>
    rw [List.cons_append, containsChars, ih, Bool.or_true]

/-- The text built around a part contains the part. -/
theorem Contains_append (pre sub post : String) : Contains (pre ++ sub ++ post) sub = true := by
  simp only [Contains, String.data_append, List.append_assoc]
  exact containsChars_append sub.data pre.data post.data

/-- C14, the claim at a failing input: the second field of `/telemost FOO` is `FOO`, the answer
is the ephemeral text that echoes `foo`, and that text does not contain `FOO`. -/
theorem unknown_command_echo_not_verbatim :
    (Command.Fields "/telemost FOO").getD 1 "" = "FOO" ∧
      (Command.Handle Example.lib Faults.none (fun _ _ _ w => (w, .panic)) Example.emptyWorld
        ⟨"/telemost FOO", "u1", "c1"⟩).2
        = .ok (Command.ephemeral
            "Unknown command: `foo`. Use `/telemost help` to see available commands.") ∧
      Contains "Unknown command: `foo`. Use `/telemost help` to see available commands." "FOO"
        = false := by
  refine ⟨by decide, by rfl, by decide⟩

/-- C14, as amended. For every command text whose second field `s` lowers (strings.ToLower)
to none of start, connect, disconnect, help, Handle leaves the world as it was and returns the
ephemeral "Unknown command" response whose text contains the lowered `s`; the text contains `s`
as typed whenever lowering leaves `s` as it is. -/
theorem unknown_command_echo (lib : GoLib) (f : Faults) (plugin : Command.MeetingCreator)
    (w : World) (args : Command.CommandArgs)
    (hfields : 2 ≤ (Command.Fields args.Command).length)
    (hstart : lib.toLower ((Command.Fields args.Command).getD 1 "") ≠ "start")
    (hconnect : lib.toLower ((Command.Fields args.Command).getD 1 "") ≠ "connect")
    (hdisconnect : lib.toLower ((Command.Fields args.Command).getD 1 "") ≠ "disconnect")
    (hhelp : lib.toLower ((Command.Fields args.Command).getD 1 "") ≠ "help") :
    Command.Handle lib f plugin w args
        = (w, .ok (Command.ephemeral ("Unknown command: `"
            ++ lib.toLower ((Command.Fields args.Command).getD 1 "")
            ++ "`. Use `/telemost help` to see available commands."))) ∧
      Contains ("Unknown command: `" ++ lib.toLower ((Command.Fields args.Command).getD 1 "")
          ++ "`. Use `/telemost help` to see available commands.")
        (lib.toLower ((Command.Fields args.Command).getD 1 "")) = true ∧
      (lib.toLower ((Command.Fields args.Command).getD 1 "")
          = (Command.Fields args.Command).getD 1 "" →
        Contains ("Unknown command: `" ++ lib.toLower ((Command.Fields args.Command).getD 1 "")
            ++ "`. Use `/telemost help` to see available commands.")
          ((Command.Fields args.Command).getD 1 "") = true) := by
  have hlen : ¬ (Command.Fields args.Command).length < 2 := by omega
  refine ⟨?_, Contains_append _ _ _, ?_⟩
  · rw [List.getD_eq_getElem?_getD] at hstart hconnect hdisconnect hhelp ⊢
    simp [Command.Handle, hlen, hstart, hconnect, hdisconnect, hhelp]
  · intro hsame
    have h := Contains_append "Unknown command: `"
      (lib.toLower ((Command.Fields args.Command).getD 1 ""))
      "`. Use `/telemost help` to see available commands."
    rw [hsame] at h ⊢
    exact h

/-- C14 as amended, on the same input: the echo of `/telemost FOO` is `foo`. -/
theorem unknown_command_echo_witness :
    Command.Handle Example.lib Faults.none (fun _ _ _ w => (w, .panic)) Example.emptyWorld
        ⟨"/telemost FOO", "u1", "c1"⟩
      = (Example.emptyWorld, .ok (Command.ephemeral ("Unknown command: `"
          ++ Example.lib.toLower ((Command.Fields "/telemost FOO").getD 1 "")
          ++ "`. Use `/telemost help` to see available commands."))) :=
  (unknown_command_echo Example.lib Faults.none (fun _ _ _ w => (w, .panic)) Example.emptyWorld
    ⟨"/telemost FOO", "u1", "c1"⟩ (by decide) (by decide) (by decide) (by decide)
    (by decide)).1

/-- On a receiver that is not nil CreateMeeting does not panic. -/
theorem CreateMeeting_no_panic (lib : GoLib) (net : Net) (tc : TelemostClient)
    (req : TelemostCreateRequest) (w : World) :
    (CreateMeeting lib net (some tc) req w).2 ≠ .panic := by
  unfold CreateMeeting
  dsimp only
  split
  · simp
  · simp
  · split <;> split <;> simp

/-- The method CreateMeetingWithUserToken does not panic: it builds its own client. -/
theorem CreateMeetingWithUserToken_no_panic (lib : GoLib) (net : Net) (p : Plugin)
    (token title description : String) (w : World) :
    (CreateMeetingWithUserToken lib net p token title description w).2 ≠ .panic := by
  have h := CreateMeeting_no_panic lib net (NewTelemostClient token)
    (defaultsRequest p.getConfiguration title description []) w
  unfold CreateMeetingWithUserToken CreateMeetingWithDefaults
  dsimp only
  split
  · rename_i w1 heq
    rw [heq] at h
    exact absurd rfl h
  · simp
  · simp

/-- The dispatch of Handle with a plugin that does not panic always ends in a response without
AppError. -/
theorem Handle_response (lib : GoLib) (f : Faults) (plugin : Command.MeetingCreator) (w : World)
    (args : Command.CommandArgs)
    (hplugin : ∀ token title description w0, (plugin token title description w0).2 ≠ .panic) :
    ∃ w1 response, Command.Handle lib f plugin w args = (w1, .ok (some response, none)) := by
  unfold Command.Handle
  dsimp only
  split
  · exact ⟨_, _, rfl⟩
  split
  · split
    · exact ⟨_, _, rfl⟩
    · exact ⟨_, _, rfl⟩
    · split
      · exact ⟨_, _, rfl⟩
      · split
        · exact ⟨_, _, rfl⟩
        · rename_i tokenData _ _
          split
          · rename_i w1 heq
            exact absurd (by rw [heq]) (hplugin _ _ _ _)
          · exact ⟨_, _, rfl⟩
          · exact ⟨_, _, rfl⟩
  split
  · split <;> exact ⟨_, _, rfl⟩
  split
  · split
    · exact ⟨_, _, rfl⟩
    · exact ⟨_, _, rfl⟩
    · split <;> exact ⟨_, _, rfl⟩
  split <;> exact ⟨_, _, rfl⟩

/-- C17. Command dispatch is total: for every command text, every store and every host failure,
and every plugin whose meeting creation ends in a Meeting or an error, Handle returns a
CommandResponse that is not nil together with a nil AppError; so does ExecuteCommand with the
plugin's own CreateMeetingWithUserToken, for every answer of the network. -/
theorem handle_total (lib : GoLib) (f : Faults) (w : World) (args : Command.CommandArgs) :
    (∀ plugin : Command.MeetingCreator,
        (∀ token title description w0, (plugin token title description w0).2 ≠ .panic) →
        ∃ w1 response, Command.Handle lib f plugin w args = (w1, .ok (some response, none))) ∧
      (∀ (net : Net) (p : Plugin),
        ∃ w1 response, ExecuteCommand lib net f p w args = (w1, .ok (some response, none))) := by
  constructor
  · intro plugin hplugin
    exact Handle_response lib f plugin w args hplugin
  · intro net p
    obtain ⟨w1, response, h⟩ := Handle_response lib f (CreateMeetingWithUserToken lib net p) w
      args (CreateMeetingWithUserToken_no_panic lib net p)
    exact ⟨w1, response, by simp [ExecuteCommand, h]⟩

/-- C17, on concrete runs: `u1`, whose valid token is stored, types `/telemost start`, so the
handler reads the store and asks the plugin. A plugin whose meeting creation fails and one that
returns a Meeting both give a response and no AppError; the failure is reported in the ephemeral
text; and a plugin that panicked would be reached on this input. -/
theorem handle_total_witness :
    (∃ w1 response,
        Command.Handle Example.lib Faults.none (fun _ _ _ w => (w, .error "provider down"))
          (Example.worldWith "telemost_user_token_u1" Example.validTokenText)
          ⟨"/telemost start", "u1", "c1"⟩ = (w1, .ok (some response, none))) ∧
      (∃ w1 response,
        Command.Handle Example.lib Faults.none
          (fun _ _ _ w => (w, .ok ⟨"abc", "https://x/y", none⟩))
          (Example.worldWith "telemost_user_token_u1" Example.validTokenText)
          ⟨"/telemost start", "u1", "c1"⟩ = (w1, .ok (some response, none))) ∧
      (Command.Handle Example.lib Faults.none (fun _ _ _ w => (w, .error "provider down"))
        (Example.worldWith "telemost_user_token_u1" Example.validTokenText)
        ⟨"/telemost start", "u1", "c1"⟩).2
        = .ok (some ⟨"ephemeral",
            "**❌ Failed to create meeting!**\n\nError: provider down\n\nPlease try again or contact support.",
            []⟩, none) ∧
      (Command.Handle Example.lib Faults.none (fun _ _ _ w => (w, .panic))
        (Example.worldWith "telemost_user_token_u1" Example.validTokenText)
        ⟨"/telemost start", "u1", "c1"⟩).2 = .panic :=
  ⟨(handle_total Example.lib Faults.none
      (Example.worldWith "telemost_user_token_u1" Example.validTokenText)
      ⟨"/telemost start", "u1", "c1"⟩).1
      (fun _ _ _ w => (w, .error "provider down")) (fun _ _ _ _ => by simp),
    (handle_total Example.lib Faults.none
      (Example.worldWith "telemost_user_token_u1" Example.validTokenText)
      ⟨"/telemost start", "u1", "c1"⟩).1
      (fun _ _ _ w => (w, .ok ⟨"abc", "https://x/y", none⟩)) (fun _ _ _ _ => by simp),
    by rfl, by rfl⟩

/-! ## Token handoff and single use of a state: claims -/

/-- The path of the `start` command for a stored text that reads as an object whose
`access_token` is a string that is not empty: the plugin is asked for a meeting with that
string, and its answer decides the response. -/
theorem Handle_start_with_token (lib : GoLib) (f : Faults) (plugin : Command.MeetingCreator)
    (w : World) (args : Command.CommandArgs) (tb : Bytes) (ms : List (String × Json))
    (a : String)
    (hfields : 2 ≤ (Command.Fields args.Command).length)
    (hsub : lib.toLower ((Command.Fields args.Command).getD 1 "") = "start")
    (hget : f.kvGet ("telemost_user_token_" ++ args.UserId) = none)
    (hstored : w.kv ("telemost_user_token_" ++ args.UserId) = some tb)
    (htb : tb ≠ "")
    (hparse : lib.parse tb = some (Json.obj ms))
    (hindex : Command.mapIndex ms "access_token" = some (Json.str a))
    (ha : a ≠ "") :
    Command.Handle lib f plugin w args
      = (match plugin a "Telemost Meeting" "" w with
        | (w1, .panic) => (w1, .panic)
        | (w1, .error err) =>
          (w1, .ok (Command.ephemeral ("**❌ Failed to create meeting!**\n\nError: " ++ err
            ++ "\n\nPlease try again or contact support.")))
        | (w1, .ok meeting) =>
          (w1, .ok (some ⟨Command.CommandResponseTypeInChannel, "",
            [("type", "custom_telemost_meeting"), ("joinURL", meeting.JoinURL),
              ("meetingID", meeting.ID), ("title", "Telemost Meeting")]⟩, none))) := by
  have hlen : ¬ (Command.Fields args.Command).length < 2 := by omega
  rw [List.getD_eq_getElem?_getD] at hsub
  simp [Command.Handle, hlen, hsub, Command.clientKVGet, KVGet, hget, hstored, htb,
    Command.unmarshalMap, hparse, hindex, Command.assertString, ha]

/-- The world after CreateMeetingWithUserToken is the world after CreateMeeting on a client
with that token and the request built from the defaults. -/
theorem CreateMeetingWithUserToken_world (lib : GoLib) (net : Net) (p : Plugin)
    (token title description : String) (w : World) :
    (CreateMeetingWithUserToken lib net p token title description w).1
      = (CreateMeeting lib net (some (NewTelemostClient token))
          (defaultsRequest p.getConfiguration title description []) w).1 := by
  unfold CreateMeetingWithUserToken CreateMeetingWithDefaults
  dsimp only
  generalize CreateMeeting lib net (some (NewTelemostClient token))
    (defaultsRequest p.getConfiguration title description []) w = r
  obtain ⟨w1, o⟩ := r
  cases o <;> rfl

/-- The world after ExecuteCommand is the world after Handle. -/
theorem ExecuteCommand_world (lib : GoLib) (net : Net) (f : Faults) (p : Plugin) (w : World)
    (args : Command.CommandArgs) :
    (ExecuteCommand lib net f p w args).1
      = (Command.Handle lib f (CreateMeetingWithUserToken lib net p) w args).1 := by
  unfold ExecuteCommand
  generalize Command.Handle lib f (CreateMeetingWithUserToken lib net p) w args = r
  obtain ⟨w1, o⟩ := r
  cases o with
  | ok pr =>
    obtain ⟨response, appErr⟩ := pr
    cases appErr <;> rfl
  | error e => rfl
  | panic => rfl

/-- The world after the `start` command has asked the plugin is the world the plugin left. -/
theorem Handle_start_world (r : World × Outcome Command.TelemostMeeting) :
    (match r with
      | (w1, .panic) =>
        ((w1, .panic) : World × Outcome (Option Command.CommandResponse × Option String))
      | (w1, .error err) =>
        (w1, .ok (Command.ephemeral ("**❌ Failed to create meeting!**\n\nError: " ++ err
          ++ "\n\nPlease try again or contact support.")))
      | (w1, .ok meeting) =>
        (w1, .ok (some ⟨Command.CommandResponseTypeInChannel, "",
          [("type", "custom_telemost_meeting"), ("joinURL", meeting.JoinURL),
            ("meetingID", meeting.ID), ("title", "Telemost Meeting")]⟩, none))).1 = r.1 := by
  obtain ⟨w1, o⟩ := r
  cases o <;> rfl

/-- C15. End-to-end token handoff for the command: after a handleOAuthComplete that answered
200 and stored the access token `a` (not empty) for the user of the state, the `start` command
of that user reads the entry under the same key and asks the plugin for a meeting with exactly
`a`: when the plugin returns a Meeting the response is in-channel with props `joinURL` and
`meetingID` of that Meeting, and with the plugin's own CreateMeetingWithUserToken the request
sent to the provider carries the bearer token `a`. The library reads back the token text it
wrote, the store's Get succeeds. -/
theorem command_token_handoff (lib : GoLib) (f2 f3 : Faults) (now1 now2 : Time) (w : World)
    (body : Bytes) (accessToken state : String) (st : OAuthState) (args : Command.CommandArgs)
    (hbody : decodeOAuthCompleteRequest lib body = some ⟨accessToken, state⟩)
    (hst : unmarshalOAuthState lib (bytesOf (w.kv (oauthStateKeyPrefix ++ state))) = some st)
    (hok : (handleOAuthComplete lib f2 now1 now2 w ⟨"POST", body⟩).2.status = 200)
    (ha : accessToken ≠ "")
    (hempty : lib.parse "" = none)
    (htext : ∀ j, UserToken.toJson lib ⟨accessToken, Time.Add now2 (24 * Hour), st.UserID⟩
      = some j → lib.parse (lib.render j) = some j)
    (huser : args.UserId = st.UserID)
    (hfields : 2 ≤ (Command.Fields args.Command).length)
    (hsub : lib.toLower ((Command.Fields args.Command).getD 1 "") = "start")
    (hget : f3.kvGet (userTokenKeyPrefix ++ st.UserID) = none) :
    (∀ (plugin : Command.MeetingCreator) (w1 : World) (m : Command.TelemostMeeting),
        plugin accessToken "Telemost Meeting" ""
          (handleOAuthComplete lib f2 now1 now2 w ⟨"POST", body⟩).1 = (w1, .ok m) →
        Command.Handle lib f3 plugin (handleOAuthComplete lib f2 now1 now2 w ⟨"POST", body⟩).1
          args
          = (w1, .ok (some ⟨Command.CommandResponseTypeInChannel, "",
              [("type", "custom_telemost_meeting"), ("joinURL", m.JoinURL),
                ("meetingID", m.ID), ("title", "Telemost Meeting")]⟩, none))) ∧
      (∀ (net : Net) (p : Plugin),
        (ExecuteCommand lib net f3 p (handleOAuthComplete lib f2 now1 now2 w ⟨"POST", body⟩).1
          args).1.calls
          = (handleOAuthComplete lib f2 now1 now2 w ⟨"POST", body⟩).1.calls
            ++ [⟨"POST", telemostAPIBaseURL ++ "/conferences", "OAuth " ++ accessToken,
              "application/json",
              lib.render (defaultsRequest p.getConfiguration "Telemost Meeting" "" []).toJson⟩])
      := by
  obtain ⟨tb, hm, -, hrun⟩ :=
    handleOAuthComplete_of_success lib f2 now1 now2 w body ⟨accessToken, state⟩ st hbody hst hok
  rw [hrun]
  -- the stored text and its tree
  unfold marshalUserToken at hm
  cases hj : UserToken.toJson lib ⟨accessToken, Time.Add now2 (24 * Hour), st.UserID⟩ with
  | none => simp [hj] at hm
  | some j =>
    have hp := htext j hj
    simp only [hj, Option.map_some', Option.some.injEq] at hm
    subst hm
    have htb : lib.render j ≠ "" := by
      intro h0
      rw [h0, hempty] at hp
      exact absurd hp (by simp)
    unfold UserToken.toJson at hj
    cases he : lib.formatTime (Time.Add now2 (24 * Hour)) with
    | none => simp [he] at hj
    | some e =>
      simp only [he, Option.some.injEq] at hj
      subst hj
      have hstored := handleOAuthComplete_kv_token f2 w st.UserID state
        (lib.render (Json.obj [("access_token", Json.str accessToken),
          ("expires_at", Json.str e), ("user_id", Json.str st.UserID)])) (successPost st)
      have hkey : "telemost_user_token_" ++ args.UserId = userTokenKeyPrefix ++ st.UserID := by
        rw [huser]
        rfl
      have hindex : Command.mapIndex [("access_token", Json.str accessToken),
          ("expires_at", Json.str e), ("user_id", Json.str st.UserID)] "access_token"
          = some (Json.str accessToken) := by
        simp [Command.mapIndex, List.find?]
      have hstart := fun plugin => Handle_start_with_token lib f3 plugin _ args _ _ accessToken
        hfields hsub (by rw [hkey]; exact hget) (by rw [hkey]; exact hstored) htb hp hindex ha
      constructor
      · intro plugin w1 m hplugin
        rw [hstart plugin, hplugin]
      · intro net p
        rw [ExecuteCommand_world, hstart, Handle_start_world, CreateMeetingWithUserToken_world,
          CreateMeeting_calls]
        rfl


/-- The example library reads back the text of the token of the examples as the tree it
wrote. -/
theorem Example.readsBackTokenText (j : Json)
    (hj : UserToken.toJson Example.lib ⟨"tok", Time.Add Example.t0 (24 * Hour), "u1"⟩ = some j) :
    Example.lib.parse (Example.lib.render j) = some j := by
  obtain rfl : Json.obj [("access_token", Json.str "tok"),
      ("expires_at", Json.str "2023-11-15T22:13:20Z"), ("user_id", Json.str "u1")] = j :=
    Option.some.inj hj
  rfl

/-- C15, on a concrete run: the state of `u1` is completed at `t0` with access token `tok`, then
`u1` types `/telemost start`. -/
theorem command_token_handoff_witness :
    (ExecuteCommand Example.lib Example.createdNet Faults.none Example.pluginWithToken
        (handleOAuthComplete Example.lib Faults.none Example.t0 Example.t0
          (Example.worldWith (oauthStateKeyPrefix ++ "AAAAAAAAAAAAAAAAAAAAAAAAAAAAAAAAAAAAAAAAAAA=")
            Example.stateText)
          ⟨"POST", Example.completeBody⟩).1
        ⟨"/telemost start", "u1", "c1"⟩).1.calls
      = (handleOAuthComplete Example.lib Faults.none Example.t0 Example.t0
          (Example.worldWith (oauthStateKeyPrefix ++ "AAAAAAAAAAAAAAAAAAAAAAAAAAAAAAAAAAAAAAAAAAA=")
            Example.stateText)
          ⟨"POST", Example.completeBody⟩).1.calls
        ++ [⟨"POST", telemostAPIBaseURL ++ "/conferences", "OAuth " ++ "tok", "application/json",
          Example.lib.render
            (defaultsRequest Example.pluginWithToken.getConfiguration "Telemost Meeting" ""
              []).toJson⟩] :=
  (command_token_handoff Example.lib Faults.none Faults.none Example.t0 Example.t0
    (Example.worldWith (oauthStateKeyPrefix ++ "AAAAAAAAAAAAAAAAAAAAAAAAAAAAAAAAAAAAAAAAAAA=")
      Example.stateText)
    Example.completeBody "tok" "AAAAAAAAAAAAAAAAAAAAAAAAAAAAAAAAAAAAAAAAAAA="
    ⟨"u1", "c1", Time.Add Example.t0 (10 * Minute)⟩ ⟨"/telemost start", "u1", "c1"⟩
    (by decide) (by decide) (by decide) (by decide) rfl Example.readsBackTokenText rfl
    (by decide) (by decide) rfl).2 Example.createdNet Example.pluginWithToken

/-- A completion for a state without entry answers 400 and leaves the world as it was. -/
theorem handleOAuthComplete_no_entry (lib : GoLib) (f : Faults) (now1 now2 : Time) (w : World)
    (body : Bytes) (req : OAuthCompleteRequest)
    (hempty : lib.parse "" = none)
    (hbody : decodeOAuthCompleteRequest lib body = some req)
    (habsent : w.kv (oauthStateKeyPrefix ++ req.State) = none) :
    (handleOAuthComplete lib f now1 now2 w ⟨"POST", body⟩).1 = w ∧
      (handleOAuthComplete lib f now1 now2 w ⟨"POST", body⟩).2.status = 400 := by
  unfold handleOAuthComplete
  cases hg : f.kvGet (oauthStateKeyPrefix ++ req.State) with
  | some e => simp [hbody, KVGet, hg, httpError]
  | none => simp [hbody, KVGet, hg, habsent, bytesOf, unmarshalOAuthState, hempty, httpError]

/-- C18. An OAuth state is single-use: after a handleOAuthComplete that answered 200 for the
state `s`, the store's Delete succeeding, the store has no entry under the state key of `s`;
a second handleOAuthComplete with the same `s` and any access token then answers 400, whatever
the host does, and leaves the world as it was, so the stored token of the user is not
overwritten. -/
theorem state_single_use (lib : GoLib) (f2 f3 : Faults) (now1 now2 now3 now4 : Time) (w : World)
    (body body2 : Bytes) (accessToken accessToken2 state : String) (st : OAuthState)
    (hbody : decodeOAuthCompleteRequest lib body = some ⟨accessToken, state⟩)
    (hst : unmarshalOAuthState lib (bytesOf (w.kv (oauthStateKeyPrefix ++ state))) = some st)
    (hok : (handleOAuthComplete lib f2 now1 now2 w ⟨"POST", body⟩).2.status = 200)
    (hdel : f2.kvDelete (oauthStateKeyPrefix ++ state) = none)
    (hempty : lib.parse "" = none)
    (hbody2 : decodeOAuthCompleteRequest lib body2 = some ⟨accessToken2, state⟩) :
    (handleOAuthComplete lib f2 now1 now2 w ⟨"POST", body⟩).1.kv (oauthStateKeyPrefix ++ state)
        = none ∧
      (handleOAuthComplete lib f3 now3 now4
        (handleOAuthComplete lib f2 now1 now2 w ⟨"POST", body⟩).1 ⟨"POST", body2⟩).2.status
        = 400 ∧
      (handleOAuthComplete lib f3 now3 now4
        (handleOAuthComplete lib f2 now1 now2 w ⟨"POST", body⟩).1 ⟨"POST", body2⟩).1
        = (handleOAuthComplete lib f2 now1 now2 w ⟨"POST", body⟩).1 ∧
      (handleOAuthComplete lib f3 now3 now4
        (handleOAuthComplete lib f2 now1 now2 w ⟨"POST", body⟩).1 ⟨"POST", body2⟩).1.kv
          (userTokenKeyPrefix ++ st.UserID)
        = (handleOAuthComplete lib f2 now1 now2 w ⟨"POST", body⟩).1.kv
          (userTokenKeyPrefix ++ st.UserID) := by
  obtain ⟨tb, -, -, hrun⟩ :=
    handleOAuthComplete_of_success lib f2 now1 now2 w body ⟨accessToken, state⟩ st hbody hst hok
  have hgone : (handleOAuthComplete lib f2 now1 now2 w ⟨"POST", body⟩).1.kv
      (oauthStateKeyPrefix ++ state) = none := by
    rw [hrun, CreatePost_kv, KVDelete_ok _ _ _ hdel]
    simp
  obtain ⟨hworld, hstatus⟩ := handleOAuthComplete_no_entry lib f3 now3 now4
    (handleOAuthComplete lib f2 now1 now2 w ⟨"POST", body⟩).1 body2 ⟨accessToken2, state⟩ hempty
    hbody2 hgone
  exact ⟨hgone, hstatus, hworld, by rw [hworld]⟩

/-- C18, on a concrete run: the state of `u1` is completed at `t0` with access token `tok`, then
presented again with the same body. -/
theorem state_single_use_witness :
    (handleOAuthComplete Example.lib Faults.none Example.t0 Example.t0
        (handleOAuthComplete Example.lib Faults.none Example.t0 Example.t0
          (Example.worldWith (oauthStateKeyPrefix ++ "AAAAAAAAAAAAAAAAAAAAAAAAAAAAAAAAAAAAAAAAAAA=")
            Example.stateText)
          ⟨"POST", Example.completeBody⟩).1
        ⟨"POST", Example.completeBody⟩).2.status = 400 :=
  (state_single_use Example.lib Faults.none Faults.none Example.t0 Example.t0 Example.t0
    Example.t0
    (Example.worldWith (oauthStateKeyPrefix ++ "AAAAAAAAAAAAAAAAAAAAAAAAAAAAAAAAAAAAAAAAAAA=")
      Example.stateText)
    Example.completeBody Example.completeBody "tok" "tok"
    "AAAAAAAAAAAAAAAAAAAAAAAAAAAAAAAAAAAAAAAAAAA=" ⟨"u1", "c1", Time.Add Example.t0 (10 * Minute)⟩
    (by decide) (by decide) (by decide) rfl rfl (by decide)).2.1

/-! ## Meeting endpoint: claims -/

/-- C16, the claim at a failing input. The plugin-wide token is `plugin-token` and the store
holds for `u1` the valid token `tok` (getUserToken returns it): the request that a POST with
identity `u1` sends to the provider carries the bearer token `plugin-token`; and on an empty
store, where `u1` has no token, the same request is sent all the same. -/
theorem api_uses_plugin_token :
    (getUserToken Example.lib Faults.none Example.t0
        (Example.worldWith "telemost_user_token_u1" Example.validTokenText) "u1").2
        = .ok ⟨"tok", Time.Add Example.t0 (24 * Hour), "u1"⟩ ∧
      (handleCreateMeeting Example.lib Example.createdNet Example.pluginWithToken
        (Example.worldWith "telemost_user_token_u1" Example.validTokenText)
        ⟨"POST", Example.meetingRequestBody, "u1"⟩).1.calls
        = [⟨"POST", "https://cloud-api.yandex.net/v1/telemost-api/conferences",
            "OAuth plugin-token", "application/json",
            "\x7b\"waiting_room_level\":\"PUBLIC\"\x7d"⟩] ∧
      (handleCreateMeeting Example.lib Example.createdNet Example.pluginWithToken
        Example.emptyWorld ⟨"POST", Example.meetingRequestBody, "u1"⟩).1.calls
        = [⟨"POST", "https://cloud-api.yandex.net/v1/telemost-api/conferences",
            "OAuth plugin-token", "application/json",
            "\x7b\"waiting_room_level\":\"PUBLIC\"\x7d"⟩] := by
  refine ⟨by rfl, by decide, by decide⟩

/-- C19, the code at a failing input. The configuration `configWithoutToken` passes IsValid and
has an empty plugin-wide token, so OnConfigurationChange leaves the client nil; a POST with a
well-formed body and the identity `u1` then ends in the nil dereference of CreateMeeting, with
no response written and nothing sent. -/
theorem api_nil_client_panics :
    Example.configWithoutToken.IsValid = none ∧
      Example.pluginWithoutToken.telemostClient = none ∧
      decodeMeetingBody Example.lib Example.meetingRequestBody = some ⟨"Standup", "Daily", []⟩ ∧
      (handleCreateMeeting Example.lib Example.createdNet Example.pluginWithoutToken
        Example.emptyWorld ⟨"POST", Example.meetingRequestBody, "u1"⟩).2 = .panic ∧
      (handleCreateMeeting Example.lib Example.createdNet Example.pluginWithoutToken
        Example.emptyWorld ⟨"POST", Example.meetingRequestBody, "u1"⟩).1.calls = [] := by
  refine ⟨by decide, by decide, by decide, by rfl, by decide⟩

/-- C16, as amended. For every POST to the meeting endpoint with a well-formed body and an
identity header that is not empty, when the plugin-wide client is set the handler sends exactly
one request to the provider, whose bearer token is the token of that client and whose body is
the request built from the configuration and the decoded body; the store is not changed, and
the request is the same whatever the store holds. After OnConfigurationChange the token of the
client is the TelemostOAuthToken of the configuration, when that is not empty. -/
theorem api_bearer_token (lib : GoLib) (net : Net) (p : Plugin) (w : World) (body : Bytes)
    (userID : String) (client : TelemostClient) (req : MeetingBody)
    (hclient : p.telemostClient = some client)
    (hbody : decodeMeetingBody lib body = some req)
    (huser : userID ≠ "") :
    (handleCreateMeeting lib net p w ⟨"POST", body, userID⟩).1.calls
        = w.calls ++ [⟨"POST", telemostAPIBaseURL ++ "/conferences",
            "OAuth " ++ client.oauthToken, "application/json",
            lib.render (defaultsRequest p.getConfiguration req.Title req.Description
              req.Cohosts).toJson⟩] ∧
      (handleCreateMeeting lib net p w ⟨"POST", body, userID⟩).1.kv = w.kv ∧
      (∀ kv : String → Option Bytes,
        (handleCreateMeeting lib net p { w with kv := kv } ⟨"POST", body, userID⟩).1.calls
          = (handleCreateMeeting lib net p w ⟨"POST", body, userID⟩).1.calls) ∧
      (∀ (p0 : Plugin) (c : configuration), c.TelemostOAuthToken ≠ "" →
        (Plugin.OnConfigurationChange p0 (.ok c)).1.telemostClient
          = some ⟨c.TelemostOAuthToken⟩) := by
  have hworld : ∀ w0 : World, (handleCreateMeeting lib net p w0 ⟨"POST", body, userID⟩).1
      = (CreateMeeting lib net (some client)
          (defaultsRequest p.getConfiguration req.Title req.Description req.Cohosts) w0).1 := by
    intro w0
    unfold handleCreateMeeting CreateMeetingWithDefaults
    simp only [ne_eq, not_true_eq_false, if_false, hbody, huser, hclient]
    generalize CreateMeeting lib net (some client)
      (defaultsRequest p.getConfiguration req.Title req.Description req.Cohosts) w0 = r
    obtain ⟨w1, o⟩ := r
    cases o <;> rfl
  refine ⟨?_, ?_, ?_, ?_⟩
  · rw [hworld, CreateMeeting_calls]
  · rw [hworld]
    unfold CreateMeeting
    dsimp only
    split
    · rfl
    · rfl
    · split <;> split <;> rfl
  · intro kv
    rw [hworld, hworld, CreateMeeting_calls, CreateMeeting_calls]
  · intro p0 c hc
    simp [Plugin.OnConfigurationChange, hc, NewTelemostClient]

/-- C16 as amended, on a concrete run: the plugin-wide token is `plugin-token`, the store holds
the token `tok` of `u1`. -/
theorem api_bearer_token_witness :
    (handleCreateMeeting Example.lib Example.createdNet Example.pluginWithToken
        (Example.worldWith "telemost_user_token_u1" Example.validTokenText)
        ⟨"POST", Example.meetingRequestBody, "u1"⟩).1.calls
      = (Example.worldWith "telemost_user_token_u1" Example.validTokenText).calls
        ++ [⟨"POST", telemostAPIBaseURL ++ "/conferences",
            "OAuth " ++ (⟨"plugin-token"⟩ : TelemostClient).oauthToken, "application/json",
            Example.lib.render (defaultsRequest Example.pluginWithToken.getConfiguration
              "Standup" "Daily" []).toJson⟩] :=
  (api_bearer_token Example.lib Example.createdNet Example.pluginWithToken
    (Example.worldWith "telemost_user_token_u1" Example.validTokenText)
    Example.meetingRequestBody "u1" ⟨"plugin-token"⟩ ⟨"Standup", "Daily", []⟩ (by decide)
    (by decide) (by decide)).1
end Telemost
